import Mathlib

/-!
Shallow embedding of the retrieval-and-grounding engine of the
enterprise-rag-suite repository, together with theorems settling the
frozen claims about it.

Conventions used throughout:
 - a Python string is modelled as a list of characters (abbrev Str);
 - a Python bytes value is modelled as a list of byte values (List Nat);
 - Python floats are modelled as exact rationals;
 - a Python function that can raise is modelled as Except-valued, with
   the raised exception as the error;
 - external effects (database reads, the file system, zlib, network
   calls to embedding or LLM providers) are modelled as oracle fields of
   explicit environment structures, so that each code path of the
   sources is a pure function of its inputs and of those oracles.

Each definition is named after the Python symbol it embeds.
-/

/-- Python strings as lists of characters. -/
abbrev Str := List Char

/-- Python exception values relevant to the embedded code.
The constructor emptyInputError stands for the distinguished
EmptyInputError exception type; the repository itself never raises it
(searching the sources finds no such class), which is what claim C9 is
about. -/
inductive PyErr where
  | valueError : String → PyErr
  | emptyInputError : String → PyErr
  | runtimeError : String → PyErr
  | osError : String → PyErr
deriving DecidableEq, Repr

/-- Whether an exception value is the distinguished EmptyInputError. -/
def PyErr.isEmptyInput : PyErr → Bool
  | .emptyInputError _ => true
  | _ => false

/-- str.strip(): drop leading and trailing whitespace. -/
def pyStrip (s : Str) : Str :=
  ((s.dropWhile Char.isWhitespace).reverse.dropWhile Char.isWhitespace).reverse

/-- str.rstrip(): drop trailing whitespace. -/
def pyRstrip (s : Str) : Str :=
  (s.reverse.dropWhile Char.isWhitespace).reverse

/-- str.lower(), character by character. -/
def pyLower (s : Str) : Str := s.map Char.toLower

/-- Python `x or d` for an optional string: None and the empty string are
falsy and give the default. -/
def pyOrStr (v : Option String) (d : String) : String :=
  match v with
  | none => d
  | some s => if s = "" then d else s

/-- Python `x or d` for two plain strings (the first is used unless empty). -/
def pyOrS (a b : String) : String := if a = "" then b else a

/-- Python `x or d` for character-list strings. -/
def pyOrL (a b : Str) : Str := if a = [] then b else a

/-- Worker for wsWords: scans the text, accumulating the current word
reversed. -/
def wsWordsAux : Str → Str → List Str
  | [], acc => if acc = [] then [] else [acc.reverse]
  | c :: rest, acc =>
    if c.isWhitespace then
      if acc = [] then wsWordsAux rest [] else acc.reverse :: wsWordsAux rest []
    else wsWordsAux rest (c :: acc)

/-- str.split() with no separator: split on whitespace runs, dropping
empty pieces. -/
def wsWords (s : Str) : List Str := wsWordsAux s []

/-- The composite re.sub(whitespace-run, single space, s).strip() used all
over the retriever: collapse whitespace runs to single spaces and trim. -/
def normalizeWs (s : Str) : Str := List.intercalate [' '] (wsWords s)

/-- Leftmost index of needle inside hay, in the style of str.find
(none when absent). -/
def subIndex (hay needle : Str) : Option Nat :=
  (List.range (hay.length + 1)).find? fun i => needle.isPrefixOf (hay.drop i)

/-- Python `needle in hay` substring membership. -/
def strContains (hay needle : Str) : Bool := (subIndex hay needle).isSome

/-- A character of the regex class [a-zA-Z0-9_] used by the retriever's
query tokenizer. -/
def isPyWordChar (c : Char) : Bool :=
  (('a' ≤ c) && (c ≤ 'z')) || (('A' ≤ c) && (c ≤ 'Z')) ||
  (('0' ≤ c) && (c ≤ '9')) || (c = '_')

/-- Worker for wordRuns. -/
def wordRunsAux : Str → Str → List Str
  | [], acc => if acc = [] then [] else [acc.reverse]
  | c :: rest, acc =>
    if isPyWordChar c then wordRunsAux rest (c :: acc)
    else if acc = [] then wordRunsAux rest [] else acc.reverse :: wordRunsAux rest []

/-- re.findall of maximal [a-zA-Z0-9_]+ runs. -/
def wordRuns (s : Str) : List Str := wordRunsAux s []

/-- An ASCII letter, the regex class [A-Za-z]. -/
def isAsciiLetter (c : Char) : Bool :=
  (('a' ≤ c) && (c ≤ 'z')) || (('A' ≤ c) && (c ≤ 'Z'))

/-- The regex class [A-Za-z0-9]. -/
def isAsciiAlphanum (c : Char) : Bool := isAsciiLetter c || (('0' ≤ c) && (c ≤ '9'))

/-- Splitter for the mock summarizer's regex split at whitespace runs
preceded by a sentence-ending character (the lookbehind class [.!?]).
The accumulator holds the current piece reversed, so its head is the
previously consumed character. -/
def sentenceSplitAux : Str → Str → List Str
  | [], acc => [acc.reverse]
  | c :: rest, acc =>
    if c.isWhitespace &&
        (acc.head? = some '.' || acc.head? = some '!' || acc.head? = some '?') then
      acc.reverse :: sentenceSplitAux (rest.dropWhile Char.isWhitespace) []
    else sentenceSplitAux rest (c :: acc)
termination_by s _ => s.length
decreasing_by
  · simp only [List.length_cons]
    exact Nat.lt_succ_of_le (List.dropWhile_sublist _).length_le
  · simp

/-- re.split at whitespace runs that follow one of the characters [.!?]. -/
def sentenceSplit (s : Str) : List Str := sentenceSplitAux s []

/-- BaseChunker.validate_text: raises ValueError("Text cannot be empty")
when the text is empty or whitespace-only.  Note: this is a plain
ValueError, not a distinguished EmptyInputError. -/
def BaseChunker.validate_text (text : Str) : Except PyErr Unit :=
  if text = [] ∨ pyStrip text = [] then
    .error (.valueError "Text cannot be empty")
  else .ok ()

/-- A produced chunk.  The Python Chunk dataclass also carries a metadata
dictionary (word offsets, paragraph counts); the metadata is not needed by
any claim and is omitted here. -/
structure PyChunk where
  content : Str
  index : Nat
deriving DecidableEq, Repr

/-- Python range(0, n, step) for a positive step. -/
def rangeStep (n step : Nat) : List Nat :=
  (List.range ((n + step - 1) / step)).map (· * step)

/-- FixedSizeChunker.chunk with configuration (chunk_size, overlap,
min_chunk_size): word windows of chunk_size words, advancing by
chunk_size - overlap, dropping windows shorter than min_chunk_size.
Python range raises ValueError on a zero step; the defaults (500, 50, 50)
give step 450. -/
def FixedSizeChunker.chunk (chunk_size overlap min_chunk_size : Nat) (text : Str) :
    Except PyErr (List PyChunk) :=
  match BaseChunker.validate_text text with
  | .error e => .error e
  | .ok _ =>
    let words := wsWords text
    let step := chunk_size - overlap
    if step = 0 then .error (.valueError "range() arg 3 must not be zero")
    else
      let windows := (rangeStep words.length step).filterMap fun i =>
        let w := (words.drop i).take chunk_size
        if w.length < min_chunk_size then none
        else some (List.intercalate [' '] w)
      .ok (windows.enum.map fun p => ⟨p.2, p.1⟩)

/-- Worker for paragraphSplit, embedding re.split of the pattern
newline-whitespace-run-newline: a match starts at a newline whose maximal
whitespace run contains at least one further newline and, by greediness,
extends to the last newline of that run. -/
def paragraphSplitAux : Str → Str → List Str
  | [], acc => [acc.reverse]
  | c :: rest, acc =>
    if c = '\n' then
      let run := (c :: rest).takeWhile Char.isWhitespace
      if 2 ≤ run.count '\n' then
        let tail := run.reverse.takeWhile (fun x => x ≠ '\n')
        let consumed := run.length - tail.length
        acc.reverse :: paragraphSplitAux (rest.drop (consumed - 1)) []
      else paragraphSplitAux rest (c :: acc)
    else paragraphSplitAux rest (c :: acc)
termination_by s _ => s.length
decreasing_by
  · simp only [List.length_cons]
    exact Nat.lt_succ_of_le (List.drop_sublist _ _).length_le
  · simp
  · simp

/-- re.split on blank-line boundaries, as in ParagraphChunker. -/
def paragraphSplit (s : Str) : List Str := paragraphSplitAux s []

/-- Grouping loop of ParagraphChunker.chunk: paragraphs shorter than minp
are skipped; surviving paragraphs accumulate into the current group, which
is flushed (joined with a blank line) whenever it reaches maxp paragraphs;
a non-empty remainder is flushed at the end. -/
def paraGroupAux (maxp minp : Nat) : List Str → List Str → List Str → List Str
  | [], current, acc =>
    (if current = [] then acc
     else List.intercalate ("\n\n".toList) current :: acc).reverse
  | p :: ps, current, acc =>
    if p.length < minp then paraGroupAux maxp minp ps current acc
    else
      let current2 := current ++ [p]
      if maxp ≤ current2.length then
        paraGroupAux maxp minp ps [] (List.intercalate ("\n\n".toList) current2 :: acc)
      else paraGroupAux maxp minp ps current2 acc

/-- ParagraphChunker.chunk with configuration (max_paragraphs_per_chunk,
min_paragraph_length); defaults are (5, 50). -/
def ParagraphChunker.chunk (max_paragraphs_per_chunk min_paragraph_length : Nat)
    (text : Str) : Except PyErr (List PyChunk) :=
  match BaseChunker.validate_text text with
  | .error e => .error e
  | .ok _ =>
    let paragraphs := ((paragraphSplit text).map pyStrip).filter (· ≠ [])
    let contents := paraGroupAux max_paragraphs_per_chunk min_paragraph_length paragraphs [] []
    .ok (contents.enum.map fun p => ⟨p.2, p.1⟩)

/-- Runtime settings (src/config/settings.py).  Every field is read from an
environment variable with the shown default, so the record is a parameter
of the embedding; stDefault below is the all-defaults instance. -/
structure RAGSettings where
  chunking_strategy : String := "semantic"
  retrieval_strategy : String := "hybrid"
  llm_provider : String := "groq"
  vector_store : String := "postgres"
  embedding_provider : String := "sentence_transformer"
deriving DecidableEq, Repr

/-- The all-defaults settings instance. -/
def stDefault : RAGSettings := {}

/-- A tenant_ai_settings row / resolved tenant configuration dictionary.
Every field is nullable in the database row; the resolved configuration
produced by RAGEngine._get_tenant_ai_settings fills the same shape with
defaults (llm_model stays nullable there). -/
structure TenantCfg where
  llm_provider : Option String := none
  llm_model : Option String := none
  temperature : Option ℚ := none
  max_tokens : Option ℤ := none
  chunking_strategy : Option String := none
  retrieval_strategy : Option String := none
  vector_store : Option String := none
  embedding_provider : Option String := none
  embedding_model : Option String := none
deriving DecidableEq, Repr

/-- The chunking-strategy alias table shared by the engine's and the
retriever's _normalize_chunking_strategy. -/
def chunkAliases : List (String × String) :=
  [("fixed", "fixed_size"), ("fixed_size", "fixed_size"), ("semantic", "semantic"),
   ("paragraph", "paragraph"), ("page", "page_based"), ("page_based", "page_based"),
   ("overlap", "overlap"), ("parent_child", "parent_child"),
   ("recursive", "recursive"), ("sentence", "sentence")]

/-- RAGEngine._normalize_chunking_strategy: alias lookup with the
process-wide default as fallback. -/
def RAGEngine._normalize_chunking_strategy (st : RAGSettings) (value : String) : String :=
  (chunkAliases.lookup value.trim.toLower).getD st.chunking_strategy

/-- PostgresKeywordRetriever._normalize_chunking_strategy: same table,
fallback "semantic". -/
def PostgresKeywordRetriever._normalize_chunking_strategy (value : String) : String :=
  (chunkAliases.lookup value.trim.toLower).getD "semantic"

/-- RAGEngine._resolve_embedding_provider: explicit provider wins, else the
provider is inferred from well-known model names, else the process default. -/
def RAGEngine._resolve_embedding_provider (st : RAGSettings)
    (embedding_provider embedding_model : Option String) : String :=
  let provider := (embedding_provider.getD "").trim.toLower
  let model := (embedding_model.getD "").trim.toLower
  if provider ≠ "" then provider
  else if model = "minilm" ∨ model = "all-minilm-l6-v2" then "sentence_transformer"
  else if model.startsWith "text-embedding" ∨ model = "openai" then "openai"
  else if model.startsWith "embed-" ∨ model = "cohere" then "cohere"
  else st.embedding_provider

/-- PostgresKeywordRetriever._resolve_embedding_choice: resolves the
(provider, model) pair actually handed to the embedding adapters. -/
def PostgresKeywordRetriever._resolve_embedding_choice
    (embedding_provider_raw embedding_model_raw : Option String) :
    String × Option String :=
  let provider0 := (embedding_provider_raw.getD "").trim.toLower
  let model0 : Option String :=
    let m := (embedding_model_raw.getD "").trim
    if m = "" then none else some m
  let pm : String × Option String :=
    if provider0 = "" then
      match model0 with
      | some m =>
        let lowered := m.toLower
        if lowered = "minilm" ∨ lowered = "all-minilm-l6-v2" then
          ("sentence_transformer", some "all-MiniLM-L6-v2")
        else if lowered.startsWith "text-embedding" ∨ lowered = "openai" then
          ("openai", some m)
        else if lowered.startsWith "embed-" ∨ lowered = "cohere" then
          ("cohere", some m)
        else (provider0, some m)
      | none => (provider0, none)
    else (provider0, model0)
  let provider := if pm.1 = "" then "sentence_transformer" else pm.1
  let model := pm.2
  let model :=
    if provider = "sentence_transformer" then
      match model with
      | some m =>
        if m.toLower = "minilm" ∨ m.toLower = "all-minilm-l6-v2" then
          some "all-MiniLM-L6-v2"
        else some m
      | none => some "all-MiniLM-L6-v2"
    else model
  (provider, model)

/-- One source text collected for a tenant (a document's extracted text or
a video transcript), as assembled by _collect_source_texts. -/
structure SourceRec where
  source_name : String
  source_id : String
  text : Str
deriving DecidableEq, Repr

/-- One candidate chunk built by _build_chunks_from_sources. -/
structure ChunkRec where
  source_name : String
  source_id : String
  chunk_id : String
  snippet : Str
  text : Str
deriving DecidableEq, Repr

/-- One row produced by _rank_chunks. -/
structure RankedRow where
  source_name : String
  source_id : String
  snippet : Str
  score : ℚ
deriving DecidableEq, Repr

/-- One element of the retriever's returned list. -/
structure DocOut where
  tenant_id : ℤ
  source : String
  snippet : Str
  score : ℚ
deriving DecidableEq, Repr

/-- PostgresKeywordRetriever._score_text: capped token-hit fraction. -/
def PostgresKeywordRetriever._score_text (text : Str) (tokens : List Str) : ℚ :=
  if text = [] then 0
  else
    let lower := pyLower text
    let hits := (tokens.filter fun t => decide (t ≠ []) && strContains lower t).length
    if tokens = [] then 0
    else min (19/20) ((hits : ℚ) / (tokens.length : ℚ))

/-- PostgresKeywordRetriever._best_snippet: a window of at most max_len
characters of the whitespace-normalized text, positioned a little before
the earliest token hit when there is one. -/
def PostgresKeywordRetriever._best_snippet (text : Str) (tokens : List Str)
    (max_len : Nat) : Str :=
  let normalized := normalizeWs text
  if normalized = [] then []
  else
    let lower := pyLower normalized
    let positions := tokens.filterMap fun t => if t = [] then none else subIndex lower t
    match positions.minimum? with
    | some m =>
      let start := m - 120
      let endPos := min normalized.length (start + max_len)
      (normalized.drop start).take (endPos - start)
    | none => normalized.take max_len

/-- Python dict lookup with a default; association lists here are built in
insertion order and a Python dict keeps the last binding of a duplicated
key, hence the reversed lookup. -/
def dictGet (m : List (String × ℚ)) (k : String) : ℚ :=
  ((m.reverse.lookup k).getD 0)

/-- PostgresKeywordRetriever._keyword_scores: one keyword score per chunk,
keyed by chunk id. -/
def PostgresKeywordRetriever._keyword_scores (chunks : List ChunkRec)
    (tokens : List Str) : List (String × ℚ) :=
  chunks.map fun c =>
    (c.chunk_id, PostgresKeywordRetriever._score_text (pyOrL c.text (pyOrL c.snippet [])) tokens)

/-- The per-strategy combination of keyword score k and semantic score s
(engine lines 409-414 of postgres_retriever.py). -/
def rankStrategyScore (retrieval_strategy : String) (k s : ℚ) : ℚ :=
  if retrieval_strategy = "keyword" then k
  else if retrieval_strategy = "semantic" then s
  else (65/100) * s + (35/100) * k

/-- The row built for a chunk whose combined score survived the positivity
filter: the stored score is the combined score clamped to [0.52, 0.98]. -/
def mkRankRow (c : ChunkRec) (score : ℚ) : RankedRow :=
  ⟨c.source_name, c.source_id, c.snippet, max (52/100) (min (98/100) score)⟩

/-- Stable insertion for the descending sort: r goes in front of the first
element whose score is at most r's, so earlier rows stay first on ties,
matching Python's stable list.sort(reverse=True). -/
def insertDesc (r : RankedRow) : List RankedRow → List RankedRow
  | [] => [r]
  | x :: xs => if x.score ≤ r.score then r :: x :: xs else x :: insertDesc r xs

/-- Stable descending sort by score. -/
def stableSortDesc : List RankedRow → List RankedRow
  | [] => []
  | r :: rs => insertDesc r (stableSortDesc rs)

/-- PostgresKeywordRetriever._rank_chunks. -/
def PostgresKeywordRetriever._rank_chunks (chunks : List ChunkRec)
    (keyword_scores semantic_scores : List (String × ℚ))
    (retrieval_strategy : String) (top_k : Nat) : List RankedRow :=
  let rows := chunks.filterMap fun c =>
    let k := dictGet keyword_scores c.chunk_id
    let s := dictGet semantic_scores c.chunk_id
    let score := rankStrategyScore retrieval_strategy k s
    if score ≤ 0 then none else some (mkRankRow c score)
  (stableSortDesc rows).take (max (top_k * 2) top_k)

/-- The deduplication key of _merge_rows. -/
def mergeKey (r : RankedRow) : String × Str :=
  (pyOrS r.source_id (pyOrS r.source_name ""), pyOrL r.snippet [])

/-- Worker for _merge_rows: keeps the first row for each key and stops once
cap rows are collected. -/
def mergeRowsGo : List RankedRow → List (String × Str) → List RankedRow → Nat → List RankedRow
  | [], _, acc, _ => acc.reverse
  | row :: rest, seen, acc, cap =>
    let key := mergeKey row
    if key ∈ seen then mergeRowsGo rest seen acc cap
    else if cap ≤ acc.length + 1 then (row :: acc).reverse
    else mergeRowsGo rest (key :: seen) (row :: acc) cap

/-- PostgresKeywordRetriever._merge_rows. -/
def PostgresKeywordRetriever._merge_rows (primary secondary : List RankedRow)
    (top_k : Nat) : List RankedRow :=
  mergeRowsGo (primary ++ secondary) [] [] (max top_k 8)

/-- The chunk records contributed by one source: pieces keep their
enumeration index even when skipped, the chunk id is source_id:index, and
a piece whose 380-character snippet is empty is skipped. -/
def chunkRowsOfSource (src : SourceRec) (pieces : List Str) : List ChunkRec :=
  pieces.enum.filterMap fun p =>
    let snippet := PostgresKeywordRetriever._best_snippet p.2 [] 380
    if snippet = [] then none
    else some ⟨pyOrS src.source_name "content", pyOrS src.source_id "source",
               src.source_id ++ ":" ++ toString p.1, snippet, p.2⟩

/-- PostgresKeywordRetriever._build_chunks_from_sources.  The chunker is an
oracle (FactoryChunker delegates to the chunking package); a chunker
exception or an empty piece list degrades to the first 2000 characters of
the raw text.  The source's early return upon reaching max_chunks is the
same as truncating the concatenated list to max_chunks. -/
def PostgresKeywordRetriever._build_chunks_from_sources
    (chunker : Str → Except Unit (List Str)) (sources : List SourceRec)
    (max_chunks : Nat) : List ChunkRec :=
  ((sources.filterMap fun src =>
      if src.text = [] then none
      else
        let pieces :=
          match chunker src.text with
          | .error _ => [src.text.take 2000]
          | .ok ps => ps
        let pieces2 := if pieces = [] then [src.text.take 2000] else pieces
        some (chunkRowsOfSource src pieces2)).join).take max_chunks

/-- The retrieval-strategy alias table of retrieve. -/
def retrievalAliases : List (String × String) :=
  [("bm25", "keyword"), ("lexical", "keyword")]

/-- The vector-store alias table of retrieve. -/
def vectorAliases : List (String × String) :=
  [("pgvector", "postgres"), ("chromadb", "chroma")]

/-- The oracle environment of one retrieval call: the collected source
texts (database plus file system, possibly raising), the configured
chunker, and the semantic-score computation (vector index or in-memory
embeddings; its multi-level provider fallback is abstracted into one
Except-valued outcome, consulted only when the strategy needs semantic
scores). -/
structure RetrieveEnv where
  collect : Except String (List SourceRec)
  chunker : Str → Except Unit (List Str)
  semanticResult : Except String (List (String × ℚ))

/-- PostgresKeywordRetriever.retrieve. -/
def PostgresKeywordRetriever.retrieve (env : RetrieveEnv) (tenant_id : ℤ)
    (query : Str) (top_k : ℤ) (_course_id : Option ℤ)
    (retrieval_strategy0 vector_store0 chunking_strategy0 : Option String)
    (embedding_provider0 embedding_model0 : Option String) :
    Except String (List DocOut) :=
  let rsRaw := (pyOrStr retrieval_strategy0 "hybrid").toLower
  let retrieval_strategy := (retrievalAliases.lookup rsRaw).getD rsRaw
  let vsRaw := (pyOrStr vector_store0 "postgres").toLower
  let _vector_store := (vectorAliases.lookup vsRaw).getD vsRaw
  let _chunking_strategy :=
    PostgresKeywordRetriever._normalize_chunking_strategy (pyOrStr chunking_strategy0 "semantic")
  let tokens0 := ((wordRuns (pyLower query)).filter fun t => 3 ≤ t.length).take 8
  let tokens := if tokens0 = [] then [(pyLower query).take 64] else tokens0
  let top_kN := (max 1 (min 12 top_k)).toNat
  let _embedding_choice :=
    PostgresKeywordRetriever._resolve_embedding_choice embedding_provider0 embedding_model0
  match env.collect with
  | .error e => .error e
  | .ok sources =>
    let chunks := PostgresKeywordRetriever._build_chunks_from_sources env.chunker sources 180
    if chunks = [] then .ok []
    else
      let keyword_scores := PostgresKeywordRetriever._keyword_scores chunks tokens
      match (if retrieval_strategy = "semantic" ∨ retrieval_strategy = "hybrid" then
               env.semanticResult else .ok []) with
      | .error e => .error e
      | .ok semantic_scores =>
        let rows := PostgresKeywordRetriever._rank_chunks chunks keyword_scores
          semantic_scores retrieval_strategy top_kN
        let merged := PostgresKeywordRetriever._merge_rows [] rows top_kN
        .ok ((merged.take top_kN).map fun r =>
          ⟨tenant_id, pyOrS r.source_name (pyOrS r.source_id "content"),
           pyOrL r.snippet [], r.score⟩)

/-- HybridRetriever.retrieve: delegates and truncates to the caller's
top_k. -/
def HybridRetriever.retrieve (env : RetrieveEnv) (tenant_id : ℤ) (query : Str)
    (top_k : ℤ) (course_id : Option ℤ)
    (retrieval_strategy0 vector_store0 chunking_strategy0 : Option String)
    (embedding_provider0 embedding_model0 : Option String) :
    Except String (List DocOut) :=
  match PostgresKeywordRetriever.retrieve env tenant_id query top_k course_id
      retrieval_strategy0 vector_store0 chunking_strategy0
      embedding_provider0 embedding_model0 with
  | .error e => .error e
  | .ok rows => .ok (if rows = [] then [] else rows.take top_k.toNat)

/-- NoopReranker.rerank. -/
def NoopReranker.rerank (items : List DocOut) : List DocOut := items

/-- MockProvider.answer (src/rag/llm/adapters.py): a deterministic local
summarizer over the text after the first "Context:" marker of the prompt. -/
def MockProvider.answer (prompt : Str) : Str :=
  match subIndex prompt ("Context:".toList) with
  | none => "I could not find enough grounded course context to answer this question.".toList
  | some i =>
    let context := pyStrip (prompt.drop (i + 8))
    if context = [] then
      "I could not find enough grounded course context to answer this question.".toList
    else
      let clean := normalizeWs context
      let sentences := ((sentenceSplit clean).map pyStrip).filter fun s => 20 < s.length
      let summary :=
        if sentences = [] then clean.take 300
        else List.intercalate [' '] (sentences.take 2)
      let summary2 :=
        if 420 < summary.length then pyRstrip (summary.take 420) ++ "...".toList
        else summary
      "Based on your course materials: ".toList ++ summary2

/-- TenantAwareProvider.answer: dispatches on the resolved provider name.
The openai and groq branches perform a network call whose outcome is the
oracle argument; every other name deterministically answers with the local
mock summarizer.  The temperature and max-token clamps live inside the
provider-specific network calls and are absorbed by the oracle. -/
def TenantAwareProvider.answer (prompt : Str) (provider : String)
    (env_provider : String) (_temperature : ℚ) (_max_tokens : ℤ)
    (network : Except String Str) : Except String Str :=
  let p := (pyOrS provider env_provider).trim.toLower
  if p = "openai" then network
  else if p = "groq" then network
  else .ok (MockProvider.answer prompt)

/-- The process-wide default tenant configuration built inside
RAGEngine._get_tenant_ai_settings. -/
def RAGEngine.default_cfg (st : RAGSettings) : TenantCfg :=
  { llm_provider := some st.llm_provider,
    llm_model := none,
    temperature := some (1/5),
    max_tokens := some 500,
    chunking_strategy := some st.chunking_strategy,
    retrieval_strategy := some st.retrieval_strategy,
    vector_store := some st.vector_store,
    embedding_provider := some st.embedding_provider,
    embedding_model := some "minilm" }

/-- The empty row dictionary (fetchone() returned nothing). -/
def emptyRow : TenantCfg := {}

/-- RAGEngine._get_tenant_ai_settings on a tenant-cache miss: without a
database URL or on any read failure the defaults are returned; otherwise
each field of the (possibly missing) row is individually defaulted.  The
45-second tenant cache only replays an earlier result of this computation
and is not modelled. -/
def RAGEngine._get_tenant_ai_settings (st : RAGSettings) (db_url : String)
    (read : Except Unit (Option TenantCfg)) : TenantCfg :=
  let d := RAGEngine.default_cfg st
  if db_url = "" then d
  else
    match read with
    | .error _ => d
    | .ok rowOpt =>
      let row := rowOpt.getD emptyRow
      { llm_provider := some (pyOrStr row.llm_provider st.llm_provider),
        llm_model := row.llm_model,
        temperature := some (row.temperature.getD (1/5)),
        max_tokens := some (row.max_tokens.getD 500),
        chunking_strategy := some (pyOrStr row.chunking_strategy st.chunking_strategy),
        retrieval_strategy := some (pyOrStr row.retrieval_strategy st.retrieval_strategy),
        vector_store := some (pyOrStr row.vector_store st.vector_store),
        embedding_provider := some (pyOrStr row.embedding_provider st.embedding_provider),
        embedding_model := some (pyOrStr row.embedding_model "minilm") }

/-- The JSON payload hashed into the answer-cache key.  The source
serializes exactly these ten entries with sorted keys and hashes the
result with SHA-256; serialization of this fixed shape is injective and
the digest is treated as collision-free, so the key is modelled by the
payload itself. -/
structure CacheKeyPayload where
  tenant_id : ℤ
  course_id : Option ℤ
  q : Str
  retrieval_strategy : String
  vector_store : String
  chunking_strategy : String
  embedding_provider : String
  embedding_model : Option String
  llm_provider : String
  llm_model : Option String
deriving DecidableEq, Repr

/-- RAGEngine._make_answer_cache_key: note that the payload normalizes the
question (strip + lower) and contains no temperature or max_tokens entry. -/
def RAGEngine._make_answer_cache_key (tenant_id : ℤ) (course_id : Option ℤ)
    (question : Str) (retrieval_strategy vector_store chunking_strategy : String)
    (embedding_provider : String) (embedding_model : Option String)
    (llm_provider : String) (llm_model : Option String) : CacheKeyPayload :=
  { tenant_id := tenant_id,
    course_id := course_id,
    q := pyLower (pyStrip question),
    retrieval_strategy := retrieval_strategy,
    vector_store := vector_store,
    chunking_strategy := chunking_strategy,
    embedding_provider := embedding_provider,
    embedding_model := embedding_model,
    llm_provider := llm_provider,
    llm_model := llm_model }

/-- The key derivation of RAGEngine.answer (lines 61-81 of engine.py):
every configuration field is resolved against the process defaults, the
chunking strategy is normalized, the embedding provider is inferred, and
the result is passed to _make_answer_cache_key. -/
def RAGEngine.answerKey (st : RAGSettings) (cfg : TenantCfg) (tenant_id : ℤ)
    (course_id : Option ℤ) (question : Str) : CacheKeyPayload :=
  RAGEngine._make_answer_cache_key tenant_id course_id question
    (pyOrStr cfg.retrieval_strategy st.retrieval_strategy)
    (pyOrStr cfg.vector_store st.vector_store)
    (RAGEngine._normalize_chunking_strategy st (pyOrStr cfg.chunking_strategy st.chunking_strategy))
    (RAGEngine._resolve_embedding_provider st cfg.embedding_provider cfg.embedding_model)
    cfg.embedding_model
    (pyOrStr cfg.llm_provider st.llm_provider)
    cfg.llm_model

/-- One source entry of a returned answer. -/
structure SourceOut where
  source : String
  snippet : Str
  score : ℚ
deriving DecidableEq, Repr

/-- A result dictionary of RAGEngine.answer.  Optional fields model keys
that some of the four result shapes omit (none means the key is absent;
for provider_used and model_used the inner option is the nullable Python
value). -/
structure AnswerOutcome where
  response : Str
  grounded : Bool
  sources : List SourceOut
  provider_used : Option (Option String) := none
  model_used : Option (Option String) := none
  retrieval_strategy_used : Option String := none
  vector_store_used : Option String := none
  chunking_strategy_used : Option String := none
  top_k_used : Option ℤ := none
  llm_fallback : Option Bool := none
  warning : Option Str := none
deriving DecidableEq, Repr

/-- The oracle environment of one RAGEngine.answer request: the database
URL and the tenant-settings read, the in-process response cache contents,
the retrieval oracles, the network outcome of an openai/groq call, and the
parsed RAG_MIN_GROUND_SCORE environment value (default 0.18). -/
structure EngineEnv where
  db_url : String
  settingsRead : Except Unit (Option TenantCfg)
  cache : List (CacheKeyPayload × AnswerOutcome)
  retrieveEnv : RetrieveEnv
  llmNetwork : Except String Str
  minGroundScore : ℚ

/-- RAGEngine._get_cached_answer restricted to the in-process map (the
TTL comparison and the optional redis tier only refresh this map and are
absorbed into the cache contents). -/
def RAGEngine._get_cached_answer (cache : List (CacheKeyPayload × AnswerOutcome))
    (key : CacheKeyPayload) : Option AnswerOutcome :=
  (cache.find? fun e => e.1 = key).map (·.2)

/-- RAGEngine._set_cached_answer on the in-process map. -/
def RAGEngine._set_cached_answer (cache : List (CacheKeyPayload × AnswerOutcome))
    (key : CacheKeyPayload) (value : AnswerOutcome) :
    List (CacheKeyPayload × AnswerOutcome) :=
  (key, value) :: cache.filter fun e => e.1 ≠ key

/-- The tenant configuration resolved at the start of answer. -/
def RAGEngine.answerCfg (st : RAGSettings) (env : EngineEnv) : TenantCfg :=
  RAGEngine._get_tenant_ai_settings st env.db_url env.settingsRead

/-- The cache key computed by answer for a request. -/
def RAGEngine.answerCacheKey (st : RAGSettings) (env : EngineEnv) (tenant_id : ℤ)
    (course_id : Option ℤ) (question : Str) : CacheKeyPayload :=
  RAGEngine.answerKey st (RAGEngine.answerCfg st env) tenant_id course_id question

/-- Line 86 of engine.py: requested_top_k = max(10, min(25, int(top_k or 10))). -/
def RAGEngine.requestedTopK (top_k : ℤ) : ℤ :=
  max 10 (min 25 (if top_k = 0 then 10 else top_k))

/-- The retrieval step of answer: HybridRetriever.retrieve with the
resolved per-tenant arguments. -/
def RAGEngine.answerRetrieval (st : RAGSettings) (env : EngineEnv) (tenant_id : ℤ)
    (question : Str) (course_id : Option ℤ) (top_k : ℤ) :
    Except String (List DocOut) :=
  let cfg := RAGEngine.answerCfg st env
  HybridRetriever.retrieve env.retrieveEnv tenant_id question
    (RAGEngine.requestedTopK top_k) course_id
    (some (pyOrStr cfg.retrieval_strategy st.retrieval_strategy))
    (some (pyOrStr cfg.vector_store st.vector_store))
    (some (RAGEngine._normalize_chunking_strategy st (pyOrStr cfg.chunking_strategy st.chunking_strategy)))
    (some (RAGEngine._resolve_embedding_provider st cfg.embedding_provider cfg.embedding_model))
    cfg.embedding_model

/-- The retrieved documents (empty when retrieval raised). -/
def RAGEngine.answerDocs (st : RAGSettings) (env : EngineEnv) (tenant_id : ℤ)
    (question : Str) (course_id : Option ℤ) (top_k : ℤ) : List DocOut :=
  match RAGEngine.answerRetrieval st env tenant_id question course_id top_k with
  | .ok docs => docs
  | .error _ => []

/-- The grounding filter of answer (line 117 of engine.py): score at least
the minimum grounding score and a truthy snippet. -/
def groundedFilter (minScore : ℚ) (d : DocOut) : Bool :=
  decide (minScore ≤ d.score) && decide (d.snippet ≠ [])

/-- The grounded candidate list of a request. -/
def RAGEngine.answerGrounded (st : RAGSettings) (env : EngineEnv) (tenant_id : ℤ)
    (question : Str) (course_id : Option ℤ) (top_k : ℤ) : List DocOut :=
  (NoopReranker.rerank (RAGEngine.answerDocs st env tenant_id question course_id top_k)).filter
    (groundedFilter env.minGroundScore)

/-- The prompt built over the grounded context (lines 131-141). -/
def RAGEngine.answerPrompt (st : RAGSettings) (env : EngineEnv) (tenant_id : ℤ)
    (question : Str) (course_id : Option ℤ) (top_k : ℤ) : Str :=
  let context := List.intercalate ['\n']
    (((RAGEngine.answerGrounded st env tenant_id question course_id top_k).take
        (RAGEngine.requestedTopK top_k).toNat).map (·.snippet))
  "Question: ".toList ++ question ++ "\nContext: ".toList ++ context ++
    "\nInstruction: Answer directly and accurately from the context. Avoid copying noisy OCR artifacts unless essential.".toList

/-- RAGEngine.answer.  The grounded list and the prompt are written via
the stage definitions answerGrounded and answerPrompt above, which
recompute the same pure pipeline the inline code computes.  The success
branch additionally stores its result under the cache key (a state effect
on the response cache, returned to the caller unchanged); the returned
dictionary is modelled here. -/
def RAGEngine.answer (st : RAGSettings) (env : EngineEnv) (tenant_id : ℤ)
    (question : Str) (course_id : Option ℤ) (top_k : ℤ) : AnswerOutcome :=
  let cfg := RAGEngine.answerCfg st env
  let retrieval_strategy := pyOrStr cfg.retrieval_strategy st.retrieval_strategy
  let vector_store := pyOrStr cfg.vector_store st.vector_store
  let chunking_strategy :=
    RAGEngine._normalize_chunking_strategy st (pyOrStr cfg.chunking_strategy st.chunking_strategy)
  match RAGEngine._get_cached_answer env.cache
      (RAGEngine.answerCacheKey st env tenant_id course_id question) with
  | some cached => cached
  | none =>
    let rt := RAGEngine.requestedTopK top_k
    match RAGEngine.answerRetrieval st env tenant_id question course_id top_k with
    | .error exc =>
      { response := "Retrieval failed for configured strategy '".toList ++
          retrieval_strategy.toList ++ "' and vector store '".toList ++
          vector_store.toList ++ "'. Details: ".toList ++ exc.toList,
        grounded := false,
        provider_used := some cfg.llm_provider,
        model_used := some cfg.llm_model,
        retrieval_strategy_used := some retrieval_strategy,
        vector_store_used := some vector_store,
        chunking_strategy_used := some chunking_strategy,
        top_k_used := some rt,
        sources := [] }
    | .ok _docs =>
      let grounded := RAGEngine.answerGrounded st env tenant_id question course_id top_k
      if grounded = [] then
        let scope := if course_id.isSome then "this course" else "your available learning materials"
        { response := "I could not find grounded content in ".toList ++ scope.toList ++
            " for that question. Please ask your faculty to upload/index relevant files or rephrase with specific topic keywords.".toList,
          sources := [],
          grounded := false }
      else
        let provider := pyOrStr cfg.llm_provider st.llm_provider
        let model := cfg.llm_model
        let temperature := cfg.temperature.getD (1/5)
        let max_tokens := cfg.max_tokens.getD 500
        let prompt := RAGEngine.answerPrompt st env tenant_id question course_id top_k
      match TenantAwareProvider.answer prompt provider st.llm_provider temperature
          max_tokens env.llmNetwork with
      | .ok a =>
        { response := a,
          grounded := true,
          provider_used := some (some provider),
          model_used := some model,
          retrieval_strategy_used := some retrieval_strategy,
          vector_store_used := some vector_store,
          chunking_strategy_used := some chunking_strategy,
          top_k_used := some rt,
          sources := (grounded.take rt.toNat).map fun d => ⟨d.source, d.snippet, d.score⟩ }
      | .error exc =>
        let fallback := MockProvider.answer prompt
        { response := fallback,
          grounded := true,
          provider_used := some (some provider),
          model_used := some model,
          llm_fallback := some true,
          warning := some ("Provider '".toList ++ provider.toList ++
            "' failed; returned deterministic grounded fallback. Details: ".toList ++ exc.toList),
          sources := (grounded.take rt.toNat).map fun d => ⟨d.source, d.snippet, d.score⟩ }

/-- A byte of the regex class backslash-s (ASCII whitespace) when matching
over bytes. -/
def isWsByte (b : Nat) : Bool :=
  b = 32 || b = 9 || b = 10 || b = 13 || b = 11 || b = 12

/-- The bytes of an ASCII string literal. -/
def asciiBytes (s : String) : List Nat := s.toList.map Char.toNat

/-- Leftmost index of a byte pattern. -/
def byteIndex (hay needle : List Nat) : Option Nat :=
  (List.range (hay.length + 1)).find? fun i => needle.isPrefixOf (hay.drop i)

/-- latin-1 decoding: each byte is the code point of its character (total,
so the errors="ignore" flag never fires). -/
def latin1 (bs : List Nat) : Str := bs.map fun b => Char.ofNat (b % 256)

/-- The file-system and zlib oracle of the extractor: reading the bytes of
a path (which may raise), the utf-8 errors="ignore" decoder of the
standard library, and zlib.decompress (none when it raises). -/
structure FsEnv where
  readBytes : String → Except String (List Nat)
  utf8Text : List Nat → Str
  inflate : List Nat → Option (List Nat)

/-- PostgresKeywordRetriever._maybe_decompress: zlib.decompress with the
empty bytes on any failure. -/
def PostgresKeywordRetriever._maybe_decompress (env : FsEnv) (data : List Nat) : List Nat :=
  (env.inflate data).getD []

/-- End of the non-greedy stream body: the earliest position where an
optional carriage return, a newline and the literal endstream follow. -/
def streamEndIdx (body : List Nat) : Option Nat :=
  (List.range (body.length + 1)).find? fun i =>
    (asciiBytes "\r\nendstream").isPrefixOf (body.drop i) ||
    (asciiBytes "\nendstream").isPrefixOf (body.drop i)

/-- Worker scanning for successive non-overlapping matches of the pattern
stream, optional carriage return, newline, non-greedy body, optional
carriage return, newline, endstream (re.finditer with DOTALL).  The fuel
starts at the byte count plus one and strictly exceeds the number of scan
steps. -/
def pdfStreamsAux : Nat → List Nat → List (List Nat)
  | 0, _ => []
  | fuel + 1, raw =>
    match byteIndex raw (asciiBytes "stream") with
    | none => []
    | some i =>
      let after := raw.drop (i + 6)
      let bodyStart :=
        if [13, 10].isPrefixOf after then some (after.drop 2)
        else if [10].isPrefixOf after then some (after.drop 1)
        else none
      match bodyStart with
      | none => pdfStreamsAux fuel (raw.drop (i + 1))
      | some body =>
        match streamEndIdx body with
        | none => []
        | some e =>
          let endLen := if [13].isPrefixOf (body.drop e) then 11 else 10
          body.take e :: pdfStreamsAux fuel (body.drop (e + endLen))

/-- All stream payloads of a PDF byte string, in order. -/
def pdfStreams (raw : List Nat) : List (List Nat) :=
  pdfStreamsAux (raw.length + 1) raw

/-- Worker scanning for the pattern open-paren, non-greedy body,
close-paren, optional whitespace, Tj: a match at an opening parenthesis
captures up to the earliest closing parenthesis that is followed, after
whitespace, by the operator name. -/
def tjOpsAux (op : String) : Nat → List Nat → List (List Nat)
  | 0, _ => []
  | fuel + 1, data =>
    match byteIndex data [40] with
    | none => []
    | some i =>
      let after := data.drop (i + 1)
      match (List.range after.length).find? (fun p =>
          decide ((after.drop p).head? = some 41) &&
          (asciiBytes op).isPrefixOf ((after.drop (p + 1)).dropWhile isWsByte)) with
      | none => tjOpsAux op fuel (data.drop (i + 1))
      | some p =>
        let rest0 := after.drop (p + 1)
        let ws := rest0.takeWhile isWsByte
        after.take p :: tjOpsAux op fuel (rest0.drop (ws.length + op.length))

/-- The captures of the Tj pattern over one decoded stream. -/
def tjCaptures (data : List Nat) : List (List Nat) :=
  tjOpsAux "Tj" (data.length + 1) data

/-- Worker for the plain open-paren, non-greedy body, close-paren pattern
used inside TJ arrays. -/
def parenChunksAux : Nat → List Nat → List (List Nat)
  | 0, _ => []
  | fuel + 1, arr =>
    match byteIndex arr [40] with
    | none => []
    | some i =>
      let after := arr.drop (i + 1)
      match byteIndex after [41] with
      | none => []
      | some p => after.take p :: parenChunksAux fuel (after.drop (p + 1))

/-- The parenthesised strings inside a TJ array payload. -/
def parenChunks (arr : List Nat) : List (List Nat) :=
  parenChunksAux (arr.length + 1) arr

/-- The captures of the bracketed TJ pattern over one decoded stream:
tjOpsAux with brackets instead of parentheses. -/
def tjArrayCapturesAux : Nat → List Nat → List (List Nat)
  | 0, _ => []
  | fuel + 1, data =>
    match byteIndex data [91] with
    | none => []
    | some i =>
      let after := data.drop (i + 1)
      match (List.range after.length).find? (fun p =>
          decide ((after.drop p).head? = some 93) &&
          (asciiBytes "TJ").isPrefixOf ((after.drop (p + 1)).dropWhile isWsByte)) with
      | none => tjArrayCapturesAux fuel (data.drop (i + 1))
      | some p =>
        let rest0 := after.drop (p + 1)
        let ws := rest0.takeWhile isWsByte
        after.take p :: tjArrayCapturesAux fuel (rest0.drop (ws.length + 2))

/-- The array payloads of the TJ pattern. -/
def tjArrayCaptures (data : List Nat) : List (List Nat) :=
  tjArrayCapturesAux (data.length + 1) data

/-- Replace every non-overlapping occurrence of target (non-empty for all
call sites) by repl, scanning left to right, as str.replace does. -/
def replaceAllAux : Nat → Str → Str → Str → Str
  | 0, s, _, _ => s
  | _, [], _, _ => []
  | fuel + 1, c :: rest, target, repl =>
    if decide (target ≠ []) && target.isPrefixOf (c :: rest) then
      repl ++ replaceAllAux fuel ((c :: rest).drop target.length) target repl
    else c :: replaceAllAux fuel rest target repl

/-- str.replace over character lists. -/
def replaceAll (s target repl : Str) : Str :=
  replaceAllAux (s.length + 1) s target repl

/-- PostgresKeywordRetriever._decode_pdf_string: latin-1 decode, unescape
the common sequences, collapse whitespace. -/
def PostgresKeywordRetriever._decode_pdf_string (data : List Nat) : Str :=
  let s := latin1 data
  let s := replaceAll s ("\\(".toList) ("(".toList)
  let s := replaceAll s ("\\)".toList) (")".toList)
  let s := replaceAll s ("\\n".toList) (" ".toList)
  let s := replaceAll s ("\\r".toList) (" ".toList)
  let s := replaceAll s ("\\t".toList) (" ".toList)
  normalizeWs s

/-- PostgresKeywordRetriever._extract_pdf_text_ops: the decoded Tj
strings, then the decoded strings of each TJ array, keeping the non-blank
ones. -/
def PostgresKeywordRetriever._extract_pdf_text_ops (data : List Nat) : List Str :=
  let out := (tjCaptures data).map PostgresKeywordRetriever._decode_pdf_string ++
    ((tjArrayCaptures data).map fun arr =>
        (parenChunks arr).map PostgresKeywordRetriever._decode_pdf_string).flatten
  out.filter fun t => pyStrip t ≠ []

/-- A start character of the printable-run regex. -/
def isRunStart (c : Char) : Bool := isAsciiAlphanum c

/-- A continuation character of the printable-run regex class. -/
def isRunCont (c : Char) : Bool :=
  isAsciiAlphanum c || c = ' ' || c = ',' || c = '.' || c = ';' || c = ':' ||
  c = '(' || c = ')' || c = '/' || c = '_' || c = '+' || c = '-' || c = '\n'

/-- re.findall of the printable-run pattern: a start character followed
greedily by at least twenty continuation characters, non-overlapping. -/
def printableRuns : Str → List Str
  | [] => []
  | c :: rest =>
    if isRunStart c then
      let cont := rest.takeWhile isRunCont
      if 20 ≤ cont.length then (c :: cont) :: printableRuns (rest.drop cont.length)
      else printableRuns rest
    else printableRuns rest
termination_by s => s.length
decreasing_by
  · simp only [List.length_cons]
    exact Nat.lt_succ_of_le (List.drop_sublist _ _).length_le
  · simp
  · simp

/-- A word consisting of one ASCII letter. -/
def isSingleLetterWord (w : Str) : Bool :=
  match w with
  | [c] => isAsciiLetter c
  | _ => false

/-- The single-letter-run collapse of _normalize_extracted_text, at word
granularity over the whitespace-normalized text: a run of at least three
standalone single-letter words is joined into one word.  (The source uses
a word-boundary regex; on space-normalized text whose single letters stand
alone as words the two agree, and nothing is proved about the edge cases
where a single letter abuts punctuation inside a word.) -/
def collapseLetterRuns : List Str → List Str
  | [] => []
  | w :: ws =>
    if isSingleLetterWord w then
      let run := ws.takeWhile isSingleLetterWord
      if 2 ≤ run.length then (w :: run).flatten :: collapseLetterRuns (ws.drop run.length)
      else w :: collapseLetterRuns ws
    else w :: collapseLetterRuns ws
termination_by s => s.length
decreasing_by
  · simp only [List.length_cons]
    exact Nat.lt_succ_of_le (List.drop_sublist _ _).length_le
  · simp
  · simp

/-- PostgresKeywordRetriever._normalize_extracted_text. -/
def PostgresKeywordRetriever._normalize_extracted_text (text : Str) : Str :=
  let normalized := normalizeWs text
  normalizeWs (List.intercalate [' '] (collapseLetterRuns (wsWords normalized)))

/-- PostgresKeywordRetriever._extract_printable_text. -/
def PostgresKeywordRetriever._extract_printable_text (raw : List Nat) : Str :=
  PostgresKeywordRetriever._normalize_extracted_text
    (List.intercalate [' '] (printableRuns (latin1 raw)))

/-- PostgresKeywordRetriever._extract_pdf_text: reads the file (empty on
failure), extracts text-show operators from each stream payload and its
inflated form, and falls back to the printable-run heuristic when no
operator was found. -/
def PostgresKeywordRetriever._extract_pdf_text (env : FsEnv) (file_path : String) : Str :=
  match env.readBytes file_path with
  | .error _ => []
  | .ok raw =>
    let chunks := ((pdfStreams raw).map fun payload =>
      (([payload, PostgresKeywordRetriever._maybe_decompress env payload].filter
          (· ≠ [])).map PostgresKeywordRetriever._extract_pdf_text_ops).flatten).flatten
    if chunks = [] then PostgresKeywordRetriever._extract_printable_text raw
    else PostgresKeywordRetriever._normalize_extracted_text (List.intercalate [' '] chunks)

/-- The extensions read as utf-8 text files. -/
def textExts : List String :=
  [".txt", ".md", ".csv", ".json", ".py", ".ts", ".tsx", ".js"]

/-- os.path.splitext's extension of a file name: taken after the last dot
of the basename, not counting its leading dots. -/
def splitextExt (filename : String) : String :=
  let cs := filename.toList
  let base := (cs.reverse.takeWhile (fun c => c ≠ '/')).reverse
  let lead := base.takeWhile (fun c => c = '.')
  let rest := base.drop lead.length
  if rest.any (fun c => c = '.') then
    String.mk ('.' :: (rest.reverse.takeWhile (fun c => c ≠ '.')).reverse)
  else ""

/-- The body of PostgresKeywordRetriever._extract_document_text before its
catch-all handler: the text-file and raw-binary branches propagate a read
failure, the pdf branch handles its own. -/
def PostgresKeywordRetriever._extract_document_text_body (env : FsEnv)
    (file_path filename : String) : Except String Str :=
  let ext := splitextExt filename.toLower
  if ext ∈ textExts then
    match env.readBytes file_path with
    | .error e => .error e
    | .ok bs => .ok (env.utf8Text bs)
  else if ext = ".pdf" then
    .ok (PostgresKeywordRetriever._extract_pdf_text env file_path)
  else
    match env.readBytes file_path with
    | .error e => .error e
    | .ok raw => .ok (PostgresKeywordRetriever._extract_printable_text raw)

/-- PostgresKeywordRetriever._extract_document_text: the catch-all handler
turns any raised error into the empty string, so the function never
raises; the Except-valued signature keeps the raising behaviour
observable. -/
def PostgresKeywordRetriever._extract_document_text (env : FsEnv)
    (file_path filename : String) : Except PyErr Str :=
  match PostgresKeywordRetriever._extract_document_text_body env file_path filename with
  | .ok s => .ok s
  | .error _ => .ok []

/-- The plain string returned by the extractor. -/
def extractStr (env : FsEnv) (file_path filename : String) : Str :=
  match PostgresKeywordRetriever._extract_document_text env file_path filename with
  | .ok s => s
  | .error _ => []

/-- The functools.lru_cache table of _extract_document_text, most recent
first. -/
abbrev ExtractCache := List ((String × String) × Str)

/-- The lru_cache(maxsize=256) wrapper keyed by (file_path, filename): a
hit returns the stored string and refreshes its recency; a miss computes,
stores at the front and evicts beyond 256 entries. -/
def extractCached (env : FsEnv) (cache : ExtractCache)
    (file_path filename : String) : Str × ExtractCache :=
  match cache.find? (fun e => e.1 = (file_path, filename)) with
  | some e => (e.2, e :: cache.filter fun x => x.1 ≠ (file_path, filename))
  | none =>
    let v := extractStr env file_path filename
    (v, (((file_path, filename), v) :: cache).take 256)

/-! Helper lemmas. -/

theorem pyStrip_eq_nil_iff (s : Str) : pyStrip s = [] ↔ ∀ c ∈ s, c.isWhitespace := by
  unfold pyStrip
  simp only [List.reverse_eq_nil_iff, List.dropWhile_eq_nil_iff, List.mem_reverse]
  constructor
  · intro h c hc
    rcases (List.takeWhile_append_dropWhile (p := Char.isWhitespace) (l := s)) ▸ hc with h2
    rcases List.mem_append.mp h2 with h3 | h3
    · exact List.mem_takeWhile_imp h3
    · exact h c h3
  · intro h c hc
    exact h c ((List.dropWhile_sublist _).mem hc)

theorem wsWordsAux_eq_nil_iff (s : Str) :
    ∀ acc, (wsWordsAux s acc = [] ↔ acc = [] ∧ ∀ c ∈ s, c.isWhitespace) := by
  induction s with
  | nil =>
    intro acc
    by_cases h : acc = [] <;> simp [wsWordsAux, h]
  | cons c rest ih =>
    intro acc
    by_cases hw : c.isWhitespace
    · by_cases ha : acc = [] <;> simp [wsWordsAux, hw, ha, ih]
    · simp [wsWordsAux, hw, ih, hw]

theorem wsWords_eq_nil_iff (s : Str) : wsWords s = [] ↔ ∀ c ∈ s, c.isWhitespace := by
  simpa using wsWordsAux_eq_nil_iff s []

theorem validate_text_error_iff (text : Str) :
    BaseChunker.validate_text text = .error (.valueError "Text cannot be empty") ↔
      (text = [] ∨ pyStrip text = []) := by
  unfold BaseChunker.validate_text
  split <;> simp_all

theorem validate_text_ok_iff (text : Str) :
    BaseChunker.validate_text text = .ok () ↔ ¬(text = [] ∨ pyStrip text = []) := by
  unfold BaseChunker.validate_text
  split <;> simp_all

theorem rangeStep_zero_mem (n step : Nat) (hn : 0 < n) (hs : 0 < step) :
    0 ∈ rangeStep n step := by
  unfold rangeStep
  exact List.mem_map.mpr ⟨0, List.mem_range.mpr (Nat.div_pos (by omega) hs), by simp⟩

theorem paraGroupAux_ne_nil_of_active (maxp minp : Nat) :
    ∀ (ps current acc : List Str), current ≠ [] ∨ acc ≠ [] →
      paraGroupAux maxp minp ps current acc ≠ [] := by
  intro ps
  induction ps with
  | nil =>
    intro current acc h
    rcases h with h | h
    · simp [paraGroupAux, h]
    · by_cases hc : current = [] <;> simp [paraGroupAux, hc, h]
  | cons p ps ih =>
    intro current acc h
    by_cases hlen : p.length < minp
    · simpa [paraGroupAux, hlen] using ih current acc h
    · by_cases hflush : maxp ≤ current.length + 1
      · simpa [paraGroupAux, hlen, hflush] using ih [] _ (Or.inr (by simp))
      · simpa [paraGroupAux, hlen, hflush] using ih (current ++ [p]) acc (Or.inl (by simp))

theorem paraGroupAux_ne_nil_of_mem (maxp minp : Nat) :
    ∀ (ps current acc : List Str) (p : Str), p ∈ ps → minp ≤ p.length →
      paraGroupAux maxp minp ps current acc ≠ [] := by
  intro ps
  induction ps with
  | nil => intro _ _ p h; cases h
  | cons q qs ih =>
    intro current acc p hp hlen
    rcases List.mem_cons.mp hp with rfl | hp2
    · have hq : ¬ p.length < minp := by omega
      by_cases hflush : maxp ≤ current.length + 1
      · simpa [paraGroupAux, hq, hflush] using
          paraGroupAux_ne_nil_of_active maxp minp qs [] _ (Or.inr (by simp))
      · simpa [paraGroupAux, hq, hflush] using
          paraGroupAux_ne_nil_of_active maxp minp qs (current ++ [p]) acc (Or.inl (by simp))
    · by_cases hq : q.length < minp
      · simpa [paraGroupAux, hq] using ih current acc p hp2 hlen
      · by_cases hflush : maxp ≤ current.length + 1
        · simpa [paraGroupAux, hq, hflush] using ih [] _ p hp2 hlen
        · simpa [paraGroupAux, hq, hflush] using ih (current ++ [q]) acc p hp2 hlen

/-- C9 counterexample: on empty input, FixedSizeChunker.chunk (with its
default configuration) raises the generic ValueError("Text cannot be
empty") coming from BaseChunker.validate_text, not a distinguished
EmptyInputError: no such exception type exists anywhere in the
repository. -/
theorem c9_counterexample :
    FixedSizeChunker.chunk 500 50 50 [] =
      Except.error (PyErr.valueError "Text cannot be empty") ∧
    PyErr.isEmptyInput (PyErr.valueError "Text cannot be empty") = false := by
  exact ⟨rfl, rfl⟩

/-- A 50-word text for exercising the fixed-size chunker. -/
def c9text : Str := (List.replicate 50 ("word ".toList)).flatten

/-- C9 (amended): every chunking strategy validates input through the
shared BaseChunker.validate_text, which raises the generic
ValueError("Text cannot be empty") -- not a distinguished EmptyInputError
-- exactly when the text is empty or whitespace-only; with their default
configurations FixedSizeChunker.chunk and ParagraphChunker.chunk raise
exactly then, and a non-empty input yields zero chunks only through the
intentional minimum-length filtering: a text of at least min_chunk_size
words always produces a fixed-size chunk, and a parsed paragraph of at
least min_paragraph_length characters always produces a paragraph chunk. -/
theorem c9_empty_input_amended :
    (∀ text : Str,
      BaseChunker.validate_text text = .error (.valueError "Text cannot be empty") ↔
        (text = [] ∨ pyStrip text = [])) ∧
    (∀ text : Str,
      (∃ e, FixedSizeChunker.chunk 500 50 50 text = .error e) ↔
        (text = [] ∨ pyStrip text = [])) ∧
    (∀ text : Str,
      (∃ e, ParagraphChunker.chunk 5 50 text = .error e) ↔
        (text = [] ∨ pyStrip text = [])) ∧
    (∀ text : Str, pyStrip text ≠ [] → 50 ≤ (wsWords text).length →
      ∃ cs, FixedSizeChunker.chunk 500 50 50 text = .ok cs ∧ cs ≠ []) ∧
    (∀ (text : Str) (p : Str), pyStrip text ≠ [] →
      p ∈ ((paragraphSplit text).map pyStrip).filter (· ≠ []) → 50 ≤ p.length →
      ∃ cs, ParagraphChunker.chunk 5 50 text = .ok cs ∧ cs ≠ []) := by
  refine ⟨validate_text_error_iff, ?_, ?_, ?_, ?_⟩
  · intro text
    constructor
    · rintro ⟨e, he⟩
      by_contra hc
      rw [FixedSizeChunker.chunk, (validate_text_ok_iff text).mpr hc] at he
      norm_num at he
      exact absurd he (by simp)
    · intro hc
      exact ⟨_, by rw [FixedSizeChunker.chunk, (validate_text_error_iff text).mpr hc]⟩
  · intro text
    constructor
    · rintro ⟨e, he⟩
      by_contra hc
      rw [ParagraphChunker.chunk, (validate_text_ok_iff text).mpr hc] at he
      exact absurd he (by simp)
    · intro hc
      exact ⟨_, by rw [ParagraphChunker.chunk, (validate_text_error_iff text).mpr hc]⟩
  · intro text hne hwords
    have hc : ¬(text = [] ∨ pyStrip text = []) := by
      rintro (rfl | h)
      · exact hne rfl
      · exact hne h
    rw [FixedSizeChunker.chunk, (validate_text_ok_iff text).mpr hc]
    norm_num
    have h0 : 0 ∈ rangeStep (wsWords text).length 450 :=
      rangeStep_zero_mem _ _ (by omega) (by norm_num)
    have hwin : List.intercalate [' '] ((wsWords text).take 500) ∈
        (rangeStep (wsWords text).length 450).filterMap fun i =>
          let w := ((wsWords text).drop i).take 500
          if w.length < 50 then none else some (List.intercalate [' '] w) := by
      refine List.mem_filterMap.mpr ⟨0, h0, ?_⟩
      have : (((wsWords text).drop 0).take 500).length = min 500 (wsWords text).length := by
        simp [List.length_take]
      simp only [List.drop_zero] at this ⊢
      rw [if_neg (by omega)]
    have : ((rangeStep (wsWords text).length 450).filterMap fun i =>
        let w := ((wsWords text).drop i).take 500
        if w.length < 50 then none else some (List.intercalate [' '] w)) ≠ [] :=
      List.ne_nil_of_mem hwin
    simpa using this
  · intro text p hne hp hplen
    have hc : ¬(text = [] ∨ pyStrip text = []) := by
      rintro (rfl | h)
      · exact hne rfl
      · exact hne h
    rw [ParagraphChunker.chunk, (validate_text_ok_iff text).mpr hc]
    refine ⟨_, rfl, ?_⟩
    have := paraGroupAux_ne_nil_of_mem 5 50
      (((paragraphSplit text).map pyStrip).filter (· ≠ [])) [] [] p hp hplen
    simpa using this

/-- Witness for C9 at a concrete 50-word text. -/
theorem c9_empty_input_amended_witness :
    ∃ cs, FixedSizeChunker.chunk 500 50 50 c9text = .ok cs ∧ cs ≠ [] :=
  c9_empty_input_amended.2.2.2.1 c9text (by decide) (by decide)

/-- C5 counterexample: a request with topK = 1 (inside the claimed
accepted range 1-25 and inside 1-12) reaches the retriever with an
effective topK of 10, not 1: the orchestrator first forces the value up
to at least 10. -/
theorem c5_counterexample :
    RAGEngine.requestedTopK 1 = 10 ∧
    max 1 (min 12 (RAGEngine.requestedTopK 1)) = 10 ∧
    (10 : ℤ) ≠ 1 := by decide

/-- C5 (amended): for topK in 1-25 the orchestrator clamps to its own
10-25 band (line 86 of engine.py), the retriever then clamps to 1-12, so
the effective topK is min 12 (max 10 topK); it lies in 10-12, equals the
request only for topK in 10-12, and the retriever never returns more than
12 scored chunks for any topK whatsoever. -/
theorem c5_topk_clamp_amended :
    (∀ top_k : ℤ, 1 ≤ top_k → top_k ≤ 25 →
      RAGEngine.requestedTopK top_k = max 10 (min 25 top_k) ∧
      max 1 (min 12 (RAGEngine.requestedTopK top_k)) = min 12 (max 10 top_k) ∧
      10 ≤ min 12 (max 10 top_k) ∧ min 12 (max 10 top_k) ≤ 12 ∧
      (10 ≤ top_k → top_k ≤ 12 → min 12 (max 10 top_k) = top_k)) ∧
    (∀ (env : RetrieveEnv) (tenant_id : ℤ) (query : Str) (top_k : ℤ)
        (course_id : Option ℤ) (a b c d e : Option String) (docs : List DocOut),
      PostgresKeywordRetriever.retrieve env tenant_id query top_k course_id a b c d e =
        .ok docs → docs.length ≤ 12) := by
  constructor
  · intro top_k h1 h25
    have hz : ¬ top_k = 0 := by omega
    unfold RAGEngine.requestedTopK
    rw [if_neg hz]
    omega
  · intro env tenant_id query top_k course_id a b c d e docs h
    unfold PostgresKeywordRetriever.retrieve at h
    have htk : (max 1 (min 12 top_k)).toNat ≤ 12 := by omega
    split at h
    · cases h
    · dsimp only at h
      split at h
      · rw [Except.ok.injEq] at h
        subst h
        simp
      · split at h
        · cases h
        · rw [Except.ok.injEq] at h
          subst h
          calc (List.map _ (List.take (max 1 (min 12 top_k)).toNat _)).length
              ≤ (max 1 (min 12 top_k)).toNat := by
                simp [List.length_take]
            _ ≤ 12 := htk

/-- A retrieval environment with no indexed content. -/
def emptyREnv : RetrieveEnv :=
  { collect := .ok [], chunker := fun _ => .ok [], semanticResult := .ok [] }

/-- Witness for C5 at topK = 11 and at a concrete empty retrieval. -/
theorem c5_topk_clamp_amended_witness :
    (RAGEngine.requestedTopK 11 = max 10 (min 25 11) ∧
     max 1 (min 12 (RAGEngine.requestedTopK 11)) = min 12 (max 10 11) ∧
     10 ≤ min 12 (max 10 (11 : ℤ)) ∧ min 12 (max 10 (11 : ℤ)) ≤ 12 ∧
     (10 ≤ (11 : ℤ) → (11 : ℤ) ≤ 12 → min 12 (max 10 (11 : ℤ)) = 11)) ∧
    ([] : List DocOut).length ≤ 12 :=
  ⟨c5_topk_clamp_amended.1 11 (by decide) (by decide),
   c5_topk_clamp_amended.2 emptyREnv 1 [] 11 none none none none none none []
     (by rfl)⟩

theorem insertDesc_mem (a r : RankedRow) (l : List RankedRow) :
    a ∈ insertDesc r l ↔ a = r ∨ a ∈ l := by
  induction l with
  | nil => simp [insertDesc]
  | cons x xs ih =>
    by_cases h : x.score ≤ r.score
    · simp [insertDesc, h]
    · simp [insertDesc, h, ih]
      tauto

theorem stableSortDesc_mem (a : RankedRow) (l : List RankedRow) :
    a ∈ stableSortDesc l ↔ a ∈ l := by
  induction l with
  | nil => simp [stableSortDesc]
  | cons r rs ih => simp [stableSortDesc, insertDesc_mem, ih]

theorem mem_rank_chunks (chunks : List ChunkRec)
    (keyword_scores semantic_scores : List (String × ℚ))
    (retrieval_strategy : String) (top_k : Nat) (r : RankedRow)
    (hr : r ∈ PostgresKeywordRetriever._rank_chunks chunks keyword_scores
      semantic_scores retrieval_strategy top_k) :
    ∃ c ∈ chunks,
      0 < rankStrategyScore retrieval_strategy (dictGet keyword_scores c.chunk_id)
            (dictGet semantic_scores c.chunk_id) ∧
      r = mkRankRow c (rankStrategyScore retrieval_strategy
            (dictGet keyword_scores c.chunk_id) (dictGet semantic_scores c.chunk_id)) := by
  unfold PostgresKeywordRetriever._rank_chunks at hr
  have hr2 := (stableSortDesc_mem r _).mp (List.mem_of_mem_take hr)
  obtain ⟨c, hc, hfc⟩ := List.mem_filterMap.mp hr2
  refine ⟨c, hc, ?_⟩
  by_cases hpos : rankStrategyScore retrieval_strategy
      (dictGet keyword_scores c.chunk_id) (dictGet semantic_scores c.chunk_id) ≤ 0
  · rw [if_pos hpos] at hfc
    cases hfc
  · rw [if_neg hpos] at hfc
    exact ⟨by linarith [not_le.mp hpos], (Option.some.injEq _ _ ▸ hfc).symm⟩

theorem mkRankRow_score_bounds (c : ChunkRec) (score : ℚ) :
    (52/100 : ℚ) ≤ (mkRankRow c score).score ∧ (mkRankRow c score).score ≤ 98/100 := by
  unfold mkRankRow
  constructor
  · exact le_max_left _ _
  · exact max_le (by norm_num) (min_le_left _ _)

theorem mem_mergeRowsGo (r : RankedRow) :
    ∀ (rows : List RankedRow) (seen : List (String × Str)) (acc : List RankedRow)
      (cap : Nat), r ∈ mergeRowsGo rows seen acc cap → r ∈ rows ∨ r ∈ acc := by
  intro rows
  induction rows with
  | nil =>
    intro seen acc cap h
    simp [mergeRowsGo] at h
    exact Or.inr h
  | cons row rest ih =>
    intro seen acc cap h
    by_cases hseen : mergeKey row ∈ seen
    · rcases ih seen acc cap (by simpa [mergeRowsGo, hseen] using h) with h2 | h2
      · exact Or.inl (List.mem_cons_of_mem _ h2)
      · exact Or.inr h2
    · by_cases hcap : cap ≤ acc.length + 1
      · have h2 : r ∈ (row :: acc).reverse := by simpa [mergeRowsGo, hseen, hcap] using h
        rcases List.mem_cons.mp (List.mem_reverse.mp h2) with rfl | h3
        · exact Or.inl (List.mem_cons_self _ _)
        · exact Or.inr h3
      · rcases ih _ _ cap (by simpa [mergeRowsGo, hseen, hcap] using h) with h2 | h2
        · exact Or.inl (List.mem_cons_of_mem _ h2)
        · rcases List.mem_cons.mp h2 with rfl | h3
          · exact Or.inl (List.mem_cons_self _ _)
          · exact Or.inr h3

theorem mem_merge_rows (r : RankedRow) (rows : List RankedRow) (top_k : Nat)
    (h : r ∈ PostgresKeywordRetriever._merge_rows [] rows top_k) : r ∈ rows := by
  unfold PostgresKeywordRetriever._merge_rows at h
  rcases mem_mergeRowsGo r _ _ _ _ h with h2 | h2
  · simpa using h2
  · cases h2

theorem mem_build_chunks_snippet (chunker : Str → Except Unit (List Str))
    (sources : List SourceRec) (max_chunks : Nat) (c : ChunkRec)
    (hc : c ∈ PostgresKeywordRetriever._build_chunks_from_sources chunker sources max_chunks) :
    c.snippet ≠ [] := by
  unfold PostgresKeywordRetriever._build_chunks_from_sources at hc
  obtain ⟨l, hl, hcl⟩ := List.mem_flatten.mp (List.mem_of_mem_take hc)
  obtain ⟨src, _, hf⟩ := List.mem_filterMap.mp hl
  by_cases htext : src.text = []
  · rw [if_pos htext] at hf
    cases hf
  · rw [if_neg htext] at hf
    rw [Option.some.injEq] at hf
    subst hf
    obtain ⟨p, _, hfp⟩ := List.mem_filterMap.mp hcl
    by_cases hsnip : PostgresKeywordRetriever._best_snippet p.2 [] 380 = []
    · rw [if_pos hsnip] at hfp
      cases hfp
    · rw [if_neg hsnip] at hfp
      rw [Option.some.injEq] at hfp
      subst hfp
      exact hsnip

theorem retrieve_ok_mem (env : RetrieveEnv) (tenant_id : ℤ) (query : Str)
    (top_k : ℤ) (course_id : Option ℤ) (a b c d e : Option String)
    (docs : List DocOut)
    (h : PostgresKeywordRetriever.retrieve env tenant_id query top_k course_id
      a b c d e = .ok docs) :
    ∀ dd ∈ docs, (52/100 : ℚ) ≤ dd.score ∧ dd.score ≤ 98/100 ∧ dd.snippet ≠ [] := by
  intro dd hdd
  unfold PostgresKeywordRetriever.retrieve at h
  split at h
  · cases h
  · dsimp only at h
    split at h
    · rw [Except.ok.injEq] at h
      subst h
      cases hdd
    · split at h
      · cases h
      · rw [Except.ok.injEq] at h
        subst h
        obtain ⟨r, hr, hfr⟩ := List.mem_map.mp hdd
        have hr2 := mem_merge_rows r _ _ (List.mem_of_mem_take hr)
        obtain ⟨cc, hcc, _, hrow⟩ := mem_rank_chunks _ _ _ _ _ r hr2
        have hsnip : cc.snippet ≠ [] := mem_build_chunks_snippet _ _ _ cc hcc
        subst hrow
        subst hfr
        refine ⟨(mkRankRow_score_bounds cc _).1, (mkRankRow_score_bounds cc _).2, ?_⟩
        dsimp only [mkRankRow]
        simp only [pyOrL, if_neg hsnip]
        exact hsnip

theorem hybrid_retrieve_ok_mem (env : RetrieveEnv) (tenant_id : ℤ) (query : Str)
    (top_k : ℤ) (course_id : Option ℤ) (a b c d e : Option String)
    (docs : List DocOut)
    (h : HybridRetriever.retrieve env tenant_id query top_k course_id
      a b c d e = .ok docs) :
    ∀ dd ∈ docs, (52/100 : ℚ) ≤ dd.score ∧ dd.score ≤ 98/100 ∧ dd.snippet ≠ [] := by
  intro dd hdd
  unfold HybridRetriever.retrieve at h
  split at h
  · cases h
  · rw [Except.ok.injEq] at h
    subst h
    split at hdd
    · cases hdd
    · exact retrieve_ok_mem env tenant_id query top_k course_id a b c d e _
        (by assumption) dd (List.mem_of_mem_take hdd)

/-- C4: for every retrieval, every returned combined score lies in [0, 1],
and every ranked row originates in a chunk whose strategy-combined score
is strictly positive (in particular chunks with a non-positive keyword
score under the pure-keyword strategy contribute nothing). -/
theorem c4_score_bounds_and_exclusion :
    (∀ (env : RetrieveEnv) (tenant_id : ℤ) (query : Str) (top_k : ℤ)
        (course_id : Option ℤ) (a b c d e : Option String) (docs : List DocOut),
      PostgresKeywordRetriever.retrieve env tenant_id query top_k course_id
        a b c d e = .ok docs →
      ∀ dd ∈ docs, (0 : ℚ) ≤ dd.score ∧ dd.score ≤ 1) ∧
    (∀ (chunks : List ChunkRec) (keyword_scores semantic_scores : List (String × ℚ))
        (retrieval_strategy : String) (top_k : Nat) (r : RankedRow),
      r ∈ PostgresKeywordRetriever._rank_chunks chunks keyword_scores
        semantic_scores retrieval_strategy top_k →
      ∃ c ∈ chunks,
        0 < rankStrategyScore retrieval_strategy (dictGet keyword_scores c.chunk_id)
              (dictGet semantic_scores c.chunk_id) ∧
        r = mkRankRow c (rankStrategyScore retrieval_strategy
              (dictGet keyword_scores c.chunk_id) (dictGet semantic_scores c.chunk_id))) := by
  constructor
  · intro env tenant_id query top_k course_id a b c d e docs h dd hdd
    obtain ⟨h1, h2, _⟩ := retrieve_ok_mem env tenant_id query top_k course_id
      a b c d e docs h dd hdd
    constructor
    · linarith
    · linarith
  · exact fun chunks ks ss rs tk r hr => mem_rank_chunks chunks ks ss rs tk r hr

/-- Concrete retrieval data for the C4 witness. -/
def c4env : RetrieveEnv :=
  { collect := .ok [⟨"notes.txt", "document:1", "alpha beta gamma delta".toList⟩],
    chunker := fun t => .ok [t],
    semanticResult := .ok [] }

/-- The documents returned by the concrete C4 retrieval. -/
def c4docs : List DocOut :=
  [⟨7, "notes.txt", "alpha beta gamma delta".toList, 19/20⟩]

/-- The head document of the concrete C4 retrieval. -/
def c4doc : DocOut := ⟨7, "notes.txt", "alpha beta gamma delta".toList, 19/20⟩

/-- Witness for C4 at a concrete keyword retrieval. -/
theorem c4_score_bounds_and_exclusion_witness :
    (0 : ℚ) ≤ c4doc.score ∧ c4doc.score ≤ 1 :=
  c4_score_bounds_and_exclusion.1 c4env 7 ("alpha beta".toList) 10 none
    (some "keyword") none none none none c4docs (by with_unfolding_all rfl) c4doc
    (List.mem_singleton.mpr rfl)

/-- The chunk used in the C3 counterexample. -/
def c3chunk : ChunkRec := ⟨"s", "sid", "sid:0", "snippet".toList, "text".toList⟩

/-- C3 counterexample: a hybrid-ranked chunk with keyword score 0.1 and
semantic score 0.1 has raw combined score 0.65*0.1 + 0.35*0.1 = 0.1, but
the retriever's output row carries 0.52 (the clamp floor), which is 0.42
away from the claimed value, beyond any floating-point tolerance. -/
theorem c3_counterexample :
    PostgresKeywordRetriever._rank_chunks [c3chunk] [("sid:0", 1/10)]
      [("sid:0", 1/10)] "hybrid" 5 = [⟨"s", "sid", "snippet".toList, 13/25⟩] ∧
    (13/25 : ℚ) - ((65/100) * (1/10) + (35/100) * (1/10)) = 21/50 ∧
    (13/25 : ℚ) ≠ (65/100) * (1/10) + (35/100) * (1/10) := by
  refine ⟨?_, by norm_num, by norm_num⟩
  with_unfolding_all rfl

/-- C3 (amended): under the hybrid strategy every output row's combined
score equals 0.65*semantic + 0.35*keyword clamped into [0.52, 0.98]; it
equals 0.65*semantic + 0.35*keyword exactly when that value already lies
within [0.52, 0.98]. -/
theorem c3_hybrid_score_amended (chunks : List ChunkRec)
    (keyword_scores semantic_scores : List (String × ℚ)) (top_k : Nat)
    (r : RankedRow)
    (hr : r ∈ PostgresKeywordRetriever._rank_chunks chunks keyword_scores
      semantic_scores "hybrid" top_k) :
    ∃ c ∈ chunks,
      0 < (65/100) * dictGet semantic_scores c.chunk_id +
            (35/100) * dictGet keyword_scores c.chunk_id ∧
      r.score = max (52/100) (min (98/100)
        ((65/100) * dictGet semantic_scores c.chunk_id +
         (35/100) * dictGet keyword_scores c.chunk_id)) ∧
      ((52/100 : ℚ) ≤ (65/100) * dictGet semantic_scores c.chunk_id +
          (35/100) * dictGet keyword_scores c.chunk_id →
        (65/100) * dictGet semantic_scores c.chunk_id +
          (35/100) * dictGet keyword_scores c.chunk_id ≤ 98/100 →
        r.score = (65/100) * dictGet semantic_scores c.chunk_id +
          (35/100) * dictGet keyword_scores c.chunk_id) := by
  obtain ⟨c, hc, hpos, hrow⟩ :=
    mem_rank_chunks chunks keyword_scores semantic_scores "hybrid" top_k r hr
  have hstrat : rankStrategyScore "hybrid" (dictGet keyword_scores c.chunk_id)
      (dictGet semantic_scores c.chunk_id) =
      (65/100) * dictGet semantic_scores c.chunk_id +
        (35/100) * dictGet keyword_scores c.chunk_id := by
    unfold rankStrategyScore
    rw [if_neg (by decide), if_neg (by decide)]
  rw [hstrat] at hpos hrow
  refine ⟨c, hc, hpos, ?_, ?_⟩
  · rw [hrow]
    rfl
  · intro h1 h2
    rw [hrow]
    show max (52/100) (min (98/100) _) = _
    rw [min_eq_right h2, max_eq_right h1]

/-- Witness for C3 at the concrete counterexample data. -/
theorem c3_hybrid_score_amended_witness :
    ∃ c ∈ [c3chunk],
      0 < (65/100) * dictGet [("sid:0", 1/10)] c.chunk_id +
            (35/100) * dictGet [("sid:0", 1/10)] c.chunk_id ∧
      (RankedRow.mk "s" "sid" ("snippet".toList) (13/25)).score =
        max (52/100) (min (98/100)
          ((65/100) * dictGet [("sid:0", 1/10)] c.chunk_id +
           (35/100) * dictGet [("sid:0", 1/10)] c.chunk_id)) ∧
      ((52/100 : ℚ) ≤ (65/100) * dictGet [("sid:0", 1/10)] c.chunk_id +
          (35/100) * dictGet [("sid:0", 1/10)] c.chunk_id →
        (65/100) * dictGet [("sid:0", 1/10)] c.chunk_id +
          (35/100) * dictGet [("sid:0", 1/10)] c.chunk_id ≤ 98/100 →
        (RankedRow.mk "s" "sid" ("snippet".toList) (13/25)).score =
          (65/100) * dictGet [("sid:0", 1/10)] c.chunk_id +
            (35/100) * dictGet [("sid:0", 1/10)] c.chunk_id) :=
  c3_hybrid_score_amended [c3chunk] [("sid:0", 1/10)] [("sid:0", 1/10)] 5
    ⟨"s", "sid", "snippet".toList, 13/25⟩
    (of_decide_eq_true (by with_unfolding_all rfl))

/-- C7: resolving tenant configuration returns the process-wide defaults,
rather than raising, whenever the persistent read cannot be used (no
database URL, a read failure, or a missing row), and on a present row each
absent field is individually replaced by its default. -/
theorem c7_settings_defaults :
    (∀ (st : RAGSettings) (db_url : String) (read : Except Unit (Option TenantCfg)),
      (db_url = "" ∨ read = .error () ∨ read = .ok none) →
      RAGEngine._get_tenant_ai_settings st db_url read = RAGEngine.default_cfg st) ∧
    (∀ (st : RAGSettings) (db_url : String) (row : TenantCfg), db_url ≠ "" →
      (row.llm_provider = none →
        (RAGEngine._get_tenant_ai_settings st db_url (.ok (some row))).llm_provider =
          (RAGEngine.default_cfg st).llm_provider) ∧
      (row.llm_model = none →
        (RAGEngine._get_tenant_ai_settings st db_url (.ok (some row))).llm_model =
          (RAGEngine.default_cfg st).llm_model) ∧
      (row.temperature = none →
        (RAGEngine._get_tenant_ai_settings st db_url (.ok (some row))).temperature =
          (RAGEngine.default_cfg st).temperature) ∧
      (row.max_tokens = none →
        (RAGEngine._get_tenant_ai_settings st db_url (.ok (some row))).max_tokens =
          (RAGEngine.default_cfg st).max_tokens) ∧
      (row.chunking_strategy = none →
        (RAGEngine._get_tenant_ai_settings st db_url (.ok (some row))).chunking_strategy =
          (RAGEngine.default_cfg st).chunking_strategy) ∧
      (row.retrieval_strategy = none →
        (RAGEngine._get_tenant_ai_settings st db_url (.ok (some row))).retrieval_strategy =
          (RAGEngine.default_cfg st).retrieval_strategy) ∧
      (row.vector_store = none →
        (RAGEngine._get_tenant_ai_settings st db_url (.ok (some row))).vector_store =
          (RAGEngine.default_cfg st).vector_store) ∧
      (row.embedding_provider = none →
        (RAGEngine._get_tenant_ai_settings st db_url (.ok (some row))).embedding_provider =
          (RAGEngine.default_cfg st).embedding_provider) ∧
      (row.embedding_model = none →
        (RAGEngine._get_tenant_ai_settings st db_url (.ok (some row))).embedding_model =
          (RAGEngine.default_cfg st).embedding_model)) := by
  constructor
  · intro st db_url read h
    rcases h with rfl | rfl | rfl
    · rfl
    · by_cases hd : db_url = "" <;> simp [RAGEngine._get_tenant_ai_settings, hd]
    · by_cases hd : db_url = ""
      · simp [RAGEngine._get_tenant_ai_settings, hd]
      · simp only [RAGEngine._get_tenant_ai_settings, if_neg hd]
        rfl
  · intro st db_url row hd
    refine ⟨?_, ?_, ?_, ?_, ?_, ?_, ?_, ?_, ?_⟩ <;> intro habs <;>
      simp [RAGEngine._get_tenant_ai_settings, if_neg hd, RAGEngine.default_cfg,
        habs, pyOrStr, emptyRow]

/-- Witness for C7 at concrete degraded reads. -/
theorem c7_settings_defaults_witness :
    RAGEngine._get_tenant_ai_settings stDefault "" (.ok none) =
      RAGEngine.default_cfg stDefault ∧
    (RAGEngine._get_tenant_ai_settings stDefault "postgres://db"
        (.ok (some emptyRow))).temperature =
      (RAGEngine.default_cfg stDefault).temperature :=
  ⟨c7_settings_defaults.1 stDefault "" (.ok none) (Or.inl rfl),
   (c7_settings_defaults.2 stDefault "postgres://db" emptyRow (by decide)).2.2.1 rfl⟩

/-- A fully populated tenant row whose temperature is the parameter; the
two C2 requests use t = 1/5 and t = 9/10 and differ in nothing else. -/
def c2row (t : ℚ) : TenantCfg :=
  { llm_provider := some "groq",
    llm_model := some "llama-3.3-70b-versatile",
    temperature := some t,
    max_tokens := some 400,
    chunking_strategy := some "semantic",
    retrieval_strategy := some "hybrid",
    vector_store := some "postgres",
    embedding_provider := some "sentence_transformer",
    embedding_model := some "minilm" }

/-- The question of the C2 scenario. -/
def c2question : Str := "What is a binary search tree?".toList

/-- The answer stored by the first C2 request. -/
def c2cached : AnswerOutcome :=
  { response := "cached answer from the first request".toList,
    grounded := true,
    sources := [] }

/-- The engine environment of a C2 request with the given tenant
temperature: the response cache already holds the first request's entry
under the first request's key. -/
def c2env (t : ℚ) : EngineEnv :=
  { db_url := "postgres://db",
    settingsRead := .ok (some (c2row t)),
    cache := [(RAGEngine.answerKey stDefault
        (RAGEngine._get_tenant_ai_settings stDefault "postgres://db"
          (.ok (some (c2row (1/5))))) 1 none c2question, c2cached)],
    retrieveEnv := emptyREnv,
    llmNetwork := .error "provider down",
    minGroundScore := 18/100 }

/-- answer returns the stored value on a response-cache hit, before any
retrieval or model work. -/
theorem answer_cache_hit (st : RAGSettings) (env : EngineEnv) (tenant_id : ℤ)
    (question : Str) (course_id : Option ℤ) (top_k : ℤ) (v : AnswerOutcome)
    (h : RAGEngine._get_cached_answer env.cache
      (RAGEngine.answerCacheKey st env tenant_id course_id question) = some v) :
    RAGEngine.answer st env tenant_id question course_id top_k = v := by
  unfold RAGEngine.answer
  rw [h]

set_option maxHeartbeats 2000000 in
/-- C2 counterexample: two requests identical except in the resolved
temperature field (0.2 versus 0.9) derive the same answer-cache key, and
the second request is served the first request's cached answer instead of
recomputing. -/
theorem c2_counterexample :
    c2row (9/10) = { c2row (1/5) with temperature := some (9/10) } ∧
    (c2row (1/5)).temperature ≠ (c2row (9/10)).temperature ∧
    RAGEngine.answerCacheKey stDefault (c2env (1/5)) 1 none c2question =
      RAGEngine.answerCacheKey stDefault (c2env (9/10)) 1 none c2question ∧
    RAGEngine.answer stDefault (c2env (9/10)) 1 c2question none 10 = c2cached := by
  refine ⟨rfl, ?_, rfl, ?_⟩
  · intro h
    have := Option.some.inj h
    norm_num at this
  · refine answer_cache_hit stDefault (c2env (9/10)) 1 c2question none 10 c2cached ?_
    have hcache2 : (c2env (9/10)).cache =
        [(RAGEngine.answerCacheKey stDefault (c2env (9/10)) 1 none c2question,
          c2cached)] := rfl
    rw [hcache2]
    unfold RAGEngine._get_cached_answer
    rw [List.find?_cons_of_pos]
    · rfl
    · exact decide_eq_true rfl

set_option maxHeartbeats 2000000 in
/-- C2 (amended): temperature and maxTokens are absent from the
answer-cache key, so changing either never invalidates a cached answer;
the key does separate the remaining seven configuration fields after
their resolution -- equal keys force equal resolved retrieval strategy,
vector store, normalized chunking strategy, resolved embedding provider,
embedding model, llm provider and llm model, so a change that survives
resolution forces recomputation. -/
theorem c2_cache_key_amended (st : RAGSettings) (cfg cfg1 cfg2 : TenantCfg)
    (τ : Option ℚ) (μ : Option ℤ) (tenant_id : ℤ) (course_id : Option ℤ)
    (question : Str) :
    RAGEngine.answerKey st { cfg with temperature := τ, max_tokens := μ }
        tenant_id course_id question =
      RAGEngine.answerKey st cfg tenant_id course_id question ∧
    (RAGEngine.answerKey st cfg1 tenant_id course_id question =
        RAGEngine.answerKey st cfg2 tenant_id course_id question →
      pyOrStr cfg1.retrieval_strategy st.retrieval_strategy =
        pyOrStr cfg2.retrieval_strategy st.retrieval_strategy ∧
      pyOrStr cfg1.vector_store st.vector_store =
        pyOrStr cfg2.vector_store st.vector_store ∧
      RAGEngine._normalize_chunking_strategy st
          (pyOrStr cfg1.chunking_strategy st.chunking_strategy) =
        RAGEngine._normalize_chunking_strategy st
          (pyOrStr cfg2.chunking_strategy st.chunking_strategy) ∧
      RAGEngine._resolve_embedding_provider st cfg1.embedding_provider
          cfg1.embedding_model =
        RAGEngine._resolve_embedding_provider st cfg2.embedding_provider
          cfg2.embedding_model ∧
      cfg1.embedding_model = cfg2.embedding_model ∧
      pyOrStr cfg1.llm_provider st.llm_provider =
        pyOrStr cfg2.llm_provider st.llm_provider ∧
      cfg1.llm_model = cfg2.llm_model) := by
  constructor
  · rfl
  · intro h
    exact ⟨congrArg CacheKeyPayload.retrieval_strategy h,
      congrArg CacheKeyPayload.vector_store h,
      congrArg CacheKeyPayload.chunking_strategy h,
      congrArg CacheKeyPayload.embedding_provider h,
      congrArg CacheKeyPayload.embedding_model h,
      congrArg CacheKeyPayload.llm_provider h,
      congrArg CacheKeyPayload.llm_model h⟩

set_option maxHeartbeats 2000000 in
/-- Witness for C2 at the concrete configuration pair. -/
theorem c2_cache_key_amended_witness :
    RAGEngine.answerKey stDefault
        { c2row (1/5) with temperature := some (9/10), max_tokens := some 900 }
        1 none c2question =
      RAGEngine.answerKey stDefault (c2row (1/5)) 1 none c2question ∧
    pyOrStr (c2row (1/5)).retrieval_strategy stDefault.retrieval_strategy =
      pyOrStr (c2row (1/5)).retrieval_strategy stDefault.retrieval_strategy :=
  ⟨(c2_cache_key_amended stDefault (c2row (1/5)) (c2row (1/5)) (c2row (1/5))
      (some (9/10)) (some 900) 1 none c2question).1,
   ((c2_cache_key_amended stDefault (c2row (1/5)) (c2row (1/5)) (c2row (1/5))
      (some (9/10)) (some 900) 1 none c2question).2 rfl).1⟩

/-- C1: when retrieval succeeds but no retrieved candidate reaches the
minimum grounding score (zero candidates included), answer returns
grounded = false, an empty sources list, and a non-empty refusal message
naming the scope (the course when a course id was given, the tenant-wide
materials otherwise). -/
theorem c1_ungrounded_refusal (st : RAGSettings) (env : EngineEnv)
    (tenant_id : ℤ) (question : Str) (course_id : Option ℤ) (top_k : ℤ)
    (hcache : RAGEngine._get_cached_answer env.cache
      (RAGEngine.answerCacheKey st env tenant_id course_id question) = none)
    (hret : (RAGEngine.answerRetrieval st env tenant_id question course_id top_k).isOk = true)
    (hlow : ∀ d ∈ RAGEngine.answerDocs st env tenant_id question course_id top_k,
      d.score < env.minGroundScore) :
    (RAGEngine.answer st env tenant_id question course_id top_k).grounded = false ∧
    (RAGEngine.answer st env tenant_id question course_id top_k).sources = [] ∧
    (RAGEngine.answer st env tenant_id question course_id top_k).response =
      "I could not find grounded content in ".toList ++
        (if course_id.isSome then "this course"
         else "your available learning materials").toList ++
        " for that question. Please ask your faculty to upload/index relevant files or rephrase with specific topic keywords.".toList ∧
    (RAGEngine.answer st env tenant_id question course_id top_k).response ≠ [] := by
  obtain ⟨docs, hdocs⟩ : ∃ docs,
      RAGEngine.answerRetrieval st env tenant_id question course_id top_k = .ok docs := by
    cases h : RAGEngine.answerRetrieval st env tenant_id question course_id top_k with
    | ok d => exact ⟨d, rfl⟩
    | error e => rw [h] at hret; cases hret
  have hdocs2 : RAGEngine.answerDocs st env tenant_id question course_id top_k = docs := by
    simp [RAGEngine.answerDocs, hdocs]
  have hfilter : RAGEngine.answerGrounded st env tenant_id question course_id top_k = [] := by
    unfold RAGEngine.answerGrounded NoopReranker.rerank
    refine List.filter_eq_nil.mpr ?_
    intro d hd
    have hlt := hlow d hd
    simp only [groundedFilter, Bool.and_eq_true, decide_eq_true_eq, not_and]
    intro hge
    exact absurd hge (not_le.mpr hlt)
  have hans : RAGEngine.answer st env tenant_id question course_id top_k =
      { response := "I could not find grounded content in ".toList ++
          (if course_id.isSome then "this course"
           else "your available learning materials").toList ++
          " for that question. Please ask your faculty to upload/index relevant files or rephrase with specific topic keywords.".toList,
        sources := [],
        grounded := false } := by
    unfold RAGEngine.answer
    rw [hcache, hdocs]
    dsimp only
    rw [if_pos hfilter]
  refine ⟨by rw [hans], by rw [hans], by rw [hans], ?_⟩
  rw [hans]
  intro hcontra
  have := congrArg List.length hcontra
  simp at this

/-- The C1 witness question (the spec's no-matching-content scenario). -/
def c1question : Str := "quantum chromodynamics".toList

/-- The C1 witness environment: nothing indexed, cold cache. -/
def c1env : EngineEnv :=
  { db_url := "",
    settingsRead := .ok none,
    cache := [],
    retrieveEnv := emptyREnv,
    llmNetwork := .error "down",
    minGroundScore := 18/100 }

/-- Witness for C1 at a concrete request with zero candidates. -/
theorem c1_ungrounded_refusal_witness :
    (RAGEngine.answer stDefault c1env 1 c1question none 10).grounded = false ∧
    (RAGEngine.answer stDefault c1env 1 c1question none 10).sources = [] ∧
    (RAGEngine.answer stDefault c1env 1 c1question none 10).response =
      "I could not find grounded content in ".toList ++
        (if (none : Option ℤ).isSome then "this course"
         else "your available learning materials").toList ++
        " for that question. Please ask your faculty to upload/index relevant files or rephrase with specific topic keywords.".toList ∧
    (RAGEngine.answer stDefault c1env 1 c1question none 10).response ≠ [] :=
  c1_ungrounded_refusal stDefault c1env 1 c1question none 10 rfl (by rfl)
    (by intro d hd
        rw [show RAGEngine.answerDocs stDefault c1env 1 c1question none 10 = [] from rfl] at hd
        cases hd)

/-- C10: every scored chunk returned by the retriever carries a combined
score in [0.52, 0.98], and consequently, under the default minimum
grounding score 0.18, the orchestrator's refusal branch is taken exactly
when retrieval returned zero chunks. -/
theorem c10_clamped_scores_refusal_iff :
    (∀ (env : RetrieveEnv) (tenant_id : ℤ) (query : Str) (top_k : ℤ)
        (course_id : Option ℤ) (a b c d e : Option String) (docs : List DocOut),
      PostgresKeywordRetriever.retrieve env tenant_id query top_k course_id
        a b c d e = .ok docs →
      ∀ dd ∈ docs, (52/100 : ℚ) ≤ dd.score ∧ dd.score ≤ 98/100) ∧
    (∀ (st : RAGSettings) (env : EngineEnv) (tenant_id : ℤ) (question : Str)
        (course_id : Option ℤ) (top_k : ℤ),
      RAGEngine._get_cached_answer env.cache
        (RAGEngine.answerCacheKey st env tenant_id course_id question) = none →
      (RAGEngine.answerRetrieval st env tenant_id question course_id top_k).isOk = true →
      env.minGroundScore = 18/100 →
      ((RAGEngine.answer st env tenant_id question course_id top_k).grounded = false ↔
        RAGEngine.answerDocs st env tenant_id question course_id top_k = [])) := by
  constructor
  · intro env tenant_id query top_k course_id a b c d e docs h dd hdd
    obtain ⟨h1, h2, _⟩ := retrieve_ok_mem env tenant_id query top_k course_id
      a b c d e docs h dd hdd
    exact ⟨h1, h2⟩
  · intro st env tenant_id question course_id top_k hcache hret hmin
    obtain ⟨docs, hdocs⟩ : ∃ docs,
        RAGEngine.answerRetrieval st env tenant_id question course_id top_k = .ok docs := by
      cases h : RAGEngine.answerRetrieval st env tenant_id question course_id top_k with
      | ok d => exact ⟨d, rfl⟩
      | error e => rw [h] at hret; cases hret
    have hdocs2 : RAGEngine.answerDocs st env tenant_id question course_id top_k = docs := by
      simp [RAGEngine.answerDocs, hdocs]
    have hhyb : HybridRetriever.retrieve env.retrieveEnv tenant_id question
        (RAGEngine.requestedTopK top_k) course_id
        (some (pyOrStr (RAGEngine.answerCfg st env).retrieval_strategy st.retrieval_strategy))
        (some (pyOrStr (RAGEngine.answerCfg st env).vector_store st.vector_store))
        (some (RAGEngine._normalize_chunking_strategy st
          (pyOrStr (RAGEngine.answerCfg st env).chunking_strategy st.chunking_strategy)))
        (some (RAGEngine._resolve_embedding_provider st
          (RAGEngine.answerCfg st env).embedding_provider
          (RAGEngine.answerCfg st env).embedding_model))
        (RAGEngine.answerCfg st env).embedding_model = .ok docs := hdocs
    have hmem : ∀ d ∈ docs, groundedFilter env.minGroundScore d = true := by
      intro d hd
      obtain ⟨h1, _, h3⟩ := hybrid_retrieve_ok_mem _ _ _ _ _ _ _ _ _ _ docs hhyb d hd
      simp only [groundedFilter, Bool.and_eq_true, decide_eq_true_eq]
      exact ⟨by rw [hmin]; linarith, h3⟩
    have hfeq : RAGEngine.answerGrounded st env tenant_id question course_id top_k = docs := by
      unfold RAGEngine.answerGrounded NoopReranker.rerank
      rw [hdocs2]
      exact List.filter_eq_self.mpr hmem
    cases hd3 : docs with
    | nil =>
      have hcond : RAGEngine.answerGrounded st env tenant_id question course_id top_k = [] := by
        rw [hfeq, hd3]
      have hg : (RAGEngine.answer st env tenant_id question course_id top_k).grounded = false := by
        unfold RAGEngine.answer
        rw [hcache, hdocs]
        dsimp only
        rw [if_pos hcond]
      rw [hdocs2, hd3]
      exact iff_of_true hg rfl
    | cons x xs =>
      have hne : RAGEngine.answerGrounded st env tenant_id question course_id top_k ≠ [] := by
        rw [hfeq, hd3]
        exact List.cons_ne_nil x xs
      have hg : (RAGEngine.answer st env tenant_id question course_id top_k).grounded = true := by
        unfold RAGEngine.answer
        rw [hcache, hdocs]
        dsimp only
        rw [if_neg hne]
        split <;> rfl
      constructor
      · intro h
        rw [hg] at h
        cases h
      · intro h
        rw [hdocs2, hd3] at h
        cases h

/-- The C10 witness environment: cold cache, nothing indexed, default
minimum grounding score. -/
def c10env : EngineEnv :=
  { db_url := "",
    settingsRead := .ok none,
    cache := [],
    retrieveEnv := emptyREnv,
    llmNetwork := .error "down",
    minGroundScore := 18/100 }

/-- Witness for C10 at a concrete request. -/
theorem c10_clamped_scores_refusal_iff_witness :
    (RAGEngine.answer stDefault c10env 1 ("alpha".toList) none 10).grounded = false ↔
      RAGEngine.answerDocs stDefault c10env 1 ("alpha".toList) none 10 = [] :=
  c10_clamped_scores_refusal_iff.2 stDefault c10env 1 ("alpha".toList) none 10
    rfl (by rfl) rfl

/-- C6: when grounding succeeded and the call to the configured provider
raises, answer does not propagate the error: it returns the deterministic
local mock summarizer's output over the same grounded context, with
grounded = true, llm_fallback = true, a non-empty warning, and the same
sources list as the success path would carry. -/
theorem c6_llm_fallback (st : RAGSettings) (env : EngineEnv) (tenant_id : ℤ)
    (question : Str) (course_id : Option ℤ) (top_k : ℤ) (err : String) (alt : Str)
    (hcache : RAGEngine._get_cached_answer env.cache
      (RAGEngine.answerCacheKey st env tenant_id course_id question) = none)
    (hret : (RAGEngine.answerRetrieval st env tenant_id question course_id top_k).isOk = true)
    (hg : RAGEngine.answerGrounded st env tenant_id question course_id top_k ≠ [])
    (hfail : TenantAwareProvider.answer
      (RAGEngine.answerPrompt st env tenant_id question course_id top_k)
      (pyOrStr (RAGEngine.answerCfg st env).llm_provider st.llm_provider)
      st.llm_provider
      ((RAGEngine.answerCfg st env).temperature.getD (1/5))
      ((RAGEngine.answerCfg st env).max_tokens.getD 500)
      env.llmNetwork = .error err) :
    (RAGEngine.answer st env tenant_id question course_id top_k).grounded = true ∧
    (RAGEngine.answer st env tenant_id question course_id top_k).llm_fallback = some true ∧
    (RAGEngine.answer st env tenant_id question course_id top_k).warning =
      some ("Provider '".toList ++
        (pyOrStr (RAGEngine.answerCfg st env).llm_provider st.llm_provider).toList ++
        "' failed; returned deterministic grounded fallback. Details: ".toList ++
        err.toList) ∧
    (∃ w, (RAGEngine.answer st env tenant_id question course_id top_k).warning = some w ∧
      w ≠ []) ∧
    (RAGEngine.answer st env tenant_id question course_id top_k).response =
      MockProvider.answer (RAGEngine.answerPrompt st env tenant_id question course_id top_k) ∧
    (RAGEngine.answer st env tenant_id question course_id top_k).sources =
      (RAGEngine.answer st { env with llmNetwork := .ok alt } tenant_id question
        course_id top_k).sources := by
  obtain ⟨docs, hdocs⟩ : ∃ docs,
      RAGEngine.answerRetrieval st env tenant_id question course_id top_k = .ok docs := by
    cases h : RAGEngine.answerRetrieval st env tenant_id question course_id top_k with
    | ok d => exact ⟨d, rfl⟩
    | error e => rw [h] at hret; cases hret
  have hans : RAGEngine.answer st env tenant_id question course_id top_k =
      { response := MockProvider.answer
          (RAGEngine.answerPrompt st env tenant_id question course_id top_k),
        grounded := true,
        provider_used := some (some (pyOrStr (RAGEngine.answerCfg st env).llm_provider
          st.llm_provider)),
        model_used := some (RAGEngine.answerCfg st env).llm_model,
        llm_fallback := some true,
        warning := some ("Provider '".toList ++
          (pyOrStr (RAGEngine.answerCfg st env).llm_provider st.llm_provider).toList ++
          "' failed; returned deterministic grounded fallback. Details: ".toList ++
          err.toList),
        sources := ((RAGEngine.answerGrounded st env tenant_id question course_id
            top_k).take (RAGEngine.requestedTopK top_k).toNat).map
          fun d => ⟨d.source, d.snippet, d.score⟩ } := by
    unfold RAGEngine.answer
    rw [hcache, hdocs]
    dsimp only
    rw [if_neg hg, hfail]
  have hp : ((pyOrS (pyOrStr (RAGEngine.answerCfg st env).llm_provider st.llm_provider)
        st.llm_provider).trim.toLower = "openai") ∨
      ((pyOrS (pyOrStr (RAGEngine.answerCfg st env).llm_provider st.llm_provider)
        st.llm_provider).trim.toLower = "groq") := by
    by_contra hnp
    push_neg at hnp
    unfold TenantAwareProvider.answer at hfail
    rw [if_neg hnp.1, if_neg hnp.2] at hfail
    cases hfail
  have hsucc : TenantAwareProvider.answer
      (RAGEngine.answerPrompt st env tenant_id question course_id top_k)
      (pyOrStr (RAGEngine.answerCfg st env).llm_provider st.llm_provider)
      st.llm_provider
      ((RAGEngine.answerCfg st env).temperature.getD (1/5))
      ((RAGEngine.answerCfg st env).max_tokens.getD 500)
      (.ok alt) = .ok alt := by
    unfold TenantAwareProvider.answer
    dsimp only
    split_ifs with h1 h2
    · rfl
    · rfl
    · rcases hp with h | h
      · exact absurd h h1
      · exact absurd h h2
  have hcache2 : RAGEngine._get_cached_answer
      ({ env with llmNetwork := .ok alt } : EngineEnv).cache
      (RAGEngine.answerCacheKey st { env with llmNetwork := .ok alt } tenant_id
        course_id question) = none := hcache
  have hdocs2 : RAGEngine.answerRetrieval st { env with llmNetwork := .ok alt }
      tenant_id question course_id top_k = .ok docs := hdocs
  have hg2 : RAGEngine.answerGrounded st { env with llmNetwork := .ok alt }
      tenant_id question course_id top_k ≠ [] := hg
  have hsucc2 : TenantAwareProvider.answer
      (RAGEngine.answerPrompt st { env with llmNetwork := .ok alt } tenant_id
        question course_id top_k)
      (pyOrStr (RAGEngine.answerCfg st { env with llmNetwork := .ok alt }).llm_provider
        st.llm_provider)
      st.llm_provider
      ((RAGEngine.answerCfg st { env with llmNetwork := .ok alt }).temperature.getD (1/5))
      ((RAGEngine.answerCfg st { env with llmNetwork := .ok alt }).max_tokens.getD 500)
      ({ env with llmNetwork := .ok alt } : EngineEnv).llmNetwork = .ok alt := hsucc
  have hans2 : RAGEngine.answer st { env with llmNetwork := .ok alt } tenant_id
      question course_id top_k =
      { response := alt,
        grounded := true,
        provider_used := some (some (pyOrStr (RAGEngine.answerCfg st env).llm_provider
          st.llm_provider)),
        model_used := some (RAGEngine.answerCfg st env).llm_model,
        retrieval_strategy_used := some (pyOrStr (RAGEngine.answerCfg st env).retrieval_strategy
          st.retrieval_strategy),
        vector_store_used := some (pyOrStr (RAGEngine.answerCfg st env).vector_store
          st.vector_store),
        chunking_strategy_used := some (RAGEngine._normalize_chunking_strategy st
          (pyOrStr (RAGEngine.answerCfg st env).chunking_strategy st.chunking_strategy)),
        top_k_used := some (RAGEngine.requestedTopK top_k),
        sources := ((RAGEngine.answerGrounded st env tenant_id question course_id
            top_k).take (RAGEngine.requestedTopK top_k).toNat).map
          fun d => ⟨d.source, d.snippet, d.score⟩ } := by
    unfold RAGEngine.answer
    rw [hcache2, hdocs2]
    dsimp only
    rw [if_neg hg2, hsucc2]
    rfl
  refine ⟨by rw [hans], by rw [hans], by rw [hans], ?_, by rw [hans], ?_⟩
  · refine ⟨_, by rw [hans], ?_⟩
    intro hcontra
    have h0 : ("Provider '".toList : Str) = [] :=
      (List.append_eq_nil.mp
        (List.append_eq_nil.mp (List.append_eq_nil.mp hcontra).1).1).1
    exact absurd h0 (by decide)
  · rw [hans, hans2]

/-- The C6 witness retrieval data: one indexed source matching the query. -/
def c6renv : RetrieveEnv :=
  { collect := .ok [⟨"notes.txt", "document:1", "alpha beta gamma delta".toList⟩],
    chunker := fun t => .ok [t],
    semanticResult := .ok [] }

/-- The C6 witness environment: grounding will succeed and the groq call
fails. -/
def c6env : EngineEnv :=
  { db_url := "",
    settingsRead := .ok none,
    cache := [],
    retrieveEnv := c6renv,
    llmNetwork := .error "quota exceeded",
    minGroundScore := 18/100 }

/-- The C6 witness question. -/
def c6question : Str := "alpha beta".toList

/-- Witness for C6 at the concrete failing-provider request. -/
theorem c6_llm_fallback_witness :
    (RAGEngine.answer stDefault c6env 1 c6question none 10).grounded = true ∧
    (RAGEngine.answer stDefault c6env 1 c6question none 10).llm_fallback = some true ∧
    (RAGEngine.answer stDefault c6env 1 c6question none 10).warning =
      some ("Provider '".toList ++
        (pyOrStr (RAGEngine.answerCfg stDefault c6env).llm_provider
          stDefault.llm_provider).toList ++
        "' failed; returned deterministic grounded fallback. Details: ".toList ++
        ("quota exceeded" : String).toList) ∧
    (∃ w, (RAGEngine.answer stDefault c6env 1 c6question none 10).warning = some w ∧
      w ≠ []) ∧
    (RAGEngine.answer stDefault c6env 1 c6question none 10).response =
      MockProvider.answer (RAGEngine.answerPrompt stDefault c6env 1 c6question none 10) ∧
    (RAGEngine.answer stDefault c6env 1 c6question none 10).sources =
      (RAGEngine.answer stDefault { c6env with llmNetwork := .ok ("model says hello".toList) }
        1 c6question none 10).sources :=
  c6_llm_fallback stDefault c6env 1 c6question none 10 "quota exceeded"
    ("model says hello".toList) rfl (by with_unfolding_all rfl)
    (by rw [show RAGEngine.answerGrounded stDefault c6env 1 c6question none 10 =
          [⟨1, "notes.txt", "alpha beta gamma delta".toList, 13/25⟩] from
          by with_unfolding_all rfl]
        exact List.cons_ne_nil _ _)
    (by with_unfolding_all rfl)

/-- C8: for any file path and pdf-named file over arbitrary bytes the
document text extractor returns a string and never raises; it returns the
empty string when even the byte read fails; and its results are memoized
per (path, filename) pair by the lru cache. -/
theorem c8_extractor_total_memoized (env : FsEnv) (file_path filename : String)
    (hpdf : splitextExt filename.toLower = ".pdf")
    (cache : ExtractCache)
    (hcoh : ∀ x ∈ cache, x.2 = extractStr env x.1.1 x.1.2) :
    (∃ s, PostgresKeywordRetriever._extract_document_text env file_path filename = .ok s) ∧
    (∀ e, env.readBytes file_path = .error e →
      PostgresKeywordRetriever._extract_document_text env file_path filename = .ok []) ∧
    (extractCached env cache file_path filename).1 = extractStr env file_path filename ∧
    (∀ y ∈ (extractCached env cache file_path filename).2,
      y.2 = extractStr env y.1.1 y.1.2) := by
  refine ⟨?_, ?_, ?_, ?_⟩
  · unfold PostgresKeywordRetriever._extract_document_text
    cases PostgresKeywordRetriever._extract_document_text_body env file_path filename with
    | ok s => exact ⟨s, rfl⟩
    | error e => exact ⟨[], rfl⟩
  · intro e he
    unfold PostgresKeywordRetriever._extract_document_text
      PostgresKeywordRetriever._extract_document_text_body
    rw [hpdf]
    rw [if_neg (by decide), if_pos rfl]
    unfold PostgresKeywordRetriever._extract_pdf_text
    rw [he]
  · unfold extractCached
    cases hfind : cache.find? (fun x => x.1 = (file_path, filename)) with
    | none => rfl
    | some entry =>
      have hmem : entry ∈ cache := List.mem_of_find?_eq_some hfind
      have hkey0 := List.find?_some hfind
      have hkey : entry.1 = (file_path, filename) := by simpa using hkey0
      have := hcoh entry hmem
      dsimp only
      rw [this, hkey]
  · intro y hy
    unfold extractCached at hy
    cases hfind : cache.find? (fun x => x.1 = (file_path, filename)) with
    | none =>
      rw [hfind] at hy
      dsimp only at hy
      rcases List.mem_cons.mp (List.mem_of_mem_take hy) with rfl | h2
      · rfl
      · exact hcoh y h2
    | some entry =>
      rw [hfind] at hy
      dsimp only at hy
      rcases List.mem_cons.mp hy with rfl | h2
      · exact hcoh y (List.mem_of_find?_eq_some hfind)
      · exact hcoh y (List.mem_of_mem_filter h2)

/-- The C8 witness file system: every read raises. -/
def c8env : FsEnv :=
  { readBytes := fun _ => .error "io unavailable",
    utf8Text := fun _ => [],
    inflate := fun _ => none }

/-- Witness for C8 at a concrete unreadable pdf. -/
theorem c8_extractor_total_memoized_witness :
    (∃ s, PostgresKeywordRetriever._extract_document_text c8env "/tmp/a" "doc.pdf" = .ok s) ∧
    (∀ e, c8env.readBytes "/tmp/a" = .error e →
      PostgresKeywordRetriever._extract_document_text c8env "/tmp/a" "doc.pdf" = .ok []) ∧
    (extractCached c8env [] "/tmp/a" "doc.pdf").1 = extractStr c8env "/tmp/a" "doc.pdf" ∧
    (∀ y ∈ (extractCached c8env [] "/tmp/a" "doc.pdf").2,
      y.2 = extractStr c8env y.1.1 y.1.2) :=
  c8_extractor_total_memoized c8env "/tmp/a" "doc.pdf" (by with_unfolding_all rfl) []
    (by intro x hx; cases hx)
